import Mathlib

/-!
# colorhelper: CSS colour parsing and formatting

A shallow embedding of `colorhelper.go`, `colorspaces.go` and `templatefuncs.go`.

Conventions of the embedding.

* A Go `string` is a Lean `String`; the functions work on its list of characters.
* `uint8`, `uint16`, `uint32` and `uint64` values are natural numbers, reduced modulo
  `2 ^ w` at every conversion of the source.
* `float64` values are rational numbers: the arithmetic is exact, so the rounding of
  IEEE-754 is not represented. The one quotient of the source whose divisor can be zero,
  the saturation in `RGBtoHSL`, is `none` there, where Go has `NaN` or an infinity.
* A call ends in one of three ways, see `Outcome`: a value and a `nil` error, a non-`nil`
  error, or a run-time panic.
* The library functions the source calls (`regexp`, `strconv`, `strings`, `fmt`,
  `image/color`) are modelled after their documented behaviour on the arguments the
  source passes to them. Four of them are parameters: the case tables of Unicode outside
  ASCII (`unicodeLower`), `math.Pow` (`pow`), `math.Sqrt` (`sqrt`) and the verb `%v` on a
  `float64` (`formatG`).
-/

namespace Colorhelper

/-! ## Character classes of the regular expressions -/

/-- The class `\d` of Go's `regexp` syntax: an ASCII decimal digit. -/
def isDigit (c : Char) : Bool :=
  decide ('0' ≤ c ∧ c ≤ '9')

/-- The class `\s` of Go's `regexp` syntax: `[\t\n\f\r ]`. -/
def isSpace (c : Char) : Bool :=
  c == '\t' || c == '\n' || c == Char.ofNat 12 || c == '\r' || c == ' '

/-- The class `[a-fA-F0-9]`. -/
def isHexDigit (c : Char) : Bool :=
  decide (('a' ≤ c ∧ c ≤ 'f') ∨ ('A' ≤ c ∧ c ≤ 'F') ∨ ('0' ≤ c ∧ c ≤ '9'))

/-! ## Regular expressions with capture groups -/

/-- The fragment of Go's `regexp` syntax that the six patterns of the source use.
Repetition is only ever applied to a character class (`\s*`, `\d+`), so `star` takes a
class. A capture group carries its number, the rank of its opening parenthesis among the
capturing groups; `(?:...)` groups are plain sub-expressions. -/
inductive Regexp where
  | lit (c : Char)
  | cls (p : Char → Bool)
  | eps
  | seq (a b : Regexp)
  | alt (a b : Regexp)
  | star (p : Char → Bool)
  | cap (i : Nat) (a : Regexp)

namespace Regexp

/-- Concatenation of a list of expressions. -/
def cat : List Regexp → Regexp
  | [] => eps
  | r :: rs => seq r (cat rs)

/-- A literal string. -/
def str (s : String) : Regexp :=
  cat (s.toList.map lit)

/-- The repetition `c+` of a character class. -/
def plus (p : Char → Bool) : Regexp :=
  seq (cls p) (star p)

/-- The greedy option `r?`: `r` is tried before the empty match. -/
def opt (r : Regexp) : Regexp :=
  alt r eps

/-- Number of capture groups, `(*Regexp).NumSubexp`. -/
def numSubexp : Regexp → Nat
  | lit _ => 0
  | cls _ => 0
  | eps => 0
  | seq a b => numSubexp a + numSubexp b
  | alt a b => numSubexp a + numSubexp b
  | star _ => 0
  | cap _ a => numSubexp a + 1

/-- Greedy repetition of a character class in continuation-passing style: the longest run
is tried first, then shorter ones. -/
def starRun {β : Type} (p : Char → Bool) : List Char → (List Char → Option β) → Option β
  | [], k => k []
  | c :: cs, k =>
    if p c then
      match starRun p cs k with
      | some r => some r
      | none => k (c :: cs)
    else k (c :: cs)

/-- Leftmost-first (preference ordered) matching of an expression at the head of `s`, in
continuation-passing style: `k` receives the rest of the input and the captures made so
far; the first alternative that lets `k` succeed wins. -/
def run : Regexp → List Char → List (List Char) →
    (List Char → List (List Char) → Option (List (List Char))) → Option (List (List Char))
  | lit c, s, caps, k =>
    match s with
    | x :: xs => if x = c then k xs caps else none
    | [] => none
  | cls p, s, caps, k =>
    match s with
    | x :: xs => if p x then k xs caps else none
    | [] => none
  | eps, s, caps, k => k s caps
  | seq a b, s, caps, k => run a s caps (fun s1 caps1 => run b s1 caps1 k)
  | alt a b, s, caps, k =>
    match run a s caps k with
    | some r => some r
    | none => run b s caps k
  | star p, s, caps, k => starRun p s (fun s1 => k s1 caps)
  | cap i a, s, caps, k =>
    run a s caps (fun s1 caps1 => k s1 (caps1.set i (s.take (s.length - s1.length))))

/-- The continuation of the anchor `$`: the whole input has been consumed. -/
def atEnd (rest : List Char) (caps : List (List Char)) : Option (List (List Char)) :=
  if rest = [] then some caps else none

/-- The match of the anchored pattern `^r$` against the whole of `s`: the texts of the
capture groups at positions `1 ..`, position `0` still empty. -/
def exec (r : Regexp) (s : List Char) : Option (List (List Char)) :=
  run r s (List.replicate (numSubexp r + 1) []) atEnd

/-- `(*Regexp).MatchString` for the anchored pattern `^r$`. -/
def MatchString (r : Regexp) (s : String) : Bool :=
  (exec r s.toList).isSome

/-- `(*Regexp).FindStringSubmatch` for the anchored pattern `^r$`: the whole match followed
by the text of each capture group, or the `nil` slice (of length `0`) when `s` does not
match. -/
def FindStringSubmatch (r : Regexp) (s : String) : List (List Char) :=
  match exec r s.toList with
  | some caps => caps.set 0 s.toList
  | none => []

end Regexp

open Regexp in
/-- Two characters of the class `[a-fA-F0-9]`: `[a-fA-F0-9]{2}`. -/
def hexPair : Regexp :=
  seq (cls isHexDigit) (cls isHexDigit)

open Regexp in
/-- The expression `\d+(?:\.\d+)?%`. -/
def percentage : Regexp :=
  cat [plus isDigit, opt (seq (lit '.') (plus isDigit)), lit '%']

open Regexp in
/-- The expression `\d+(?:\.\d+)?`. -/
def decimal : Regexp :=
  cat [plus isDigit, opt (seq (lit '.') (plus isDigit))]

open Regexp in
/-- The pattern `^#([a-fA-F0-9]{2})([a-fA-F0-9]{2})([a-fA-F0-9]{2})$`. -/
def hexTripletRegexp : Regexp :=
  cat [lit '#', cap 1 hexPair, cap 2 hexPair, cap 3 hexPair]

open Regexp in
/-- The pattern
`^#([a-fA-F0-9]{2})([a-fA-F0-9]{2})([a-fA-F0-9]{2})([a-fA-F0-9]{2})$`. -/
def hexQuadrupletRegexp : Regexp :=
  cat [lit '#', cap 1 hexPair, cap 2 hexPair, cap 3 hexPair, cap 4 hexPair]

open Regexp in
/-- The pattern
`^rgb\(\s*(|\d+(?:\.\d+)?%)\s*,\s*(\d+|\d+(?:\.\d+)?%)\s*,\s*(?:\d+|\d+(?:\.\d+)?%)\s*\)$`:
the first group is empty or a percentage, the third component is not captured. -/
def rgbFunctionRegexp : Regexp :=
  cat [str "rgb(", star isSpace, cap 1 (alt eps percentage), star isSpace, lit ',',
    star isSpace, cap 2 (alt (plus isDigit) percentage), star isSpace, lit ',',
    star isSpace, alt (plus isDigit) percentage, star isSpace, lit ')']

open Regexp in
/-- The pattern
`^rgba\(\s*(\d+|\d+(?:\.\d+)?%)\s*,\s*(\d+|\d+(?:\.\d+)?%)\s*,\s*(?:\d+|\d+(?:\.\d+)?%)\s*,\s*(\d+(?:\.\d+)?)\s*\)$`:
the third component is not captured, the alpha value is group 3. -/
def rgbaFunctionRegexp : Regexp :=
  cat [str "rgba(", star isSpace, cap 1 (alt (plus isDigit) percentage), star isSpace,
    lit ',', star isSpace, cap 2 (alt (plus isDigit) percentage), star isSpace, lit ',',
    star isSpace, alt (plus isDigit) percentage, star isSpace, lit ',',
    star isSpace, cap 3 decimal, star isSpace, lit ')']

open Regexp in
/-- The pattern `^hsl\(\s*(\d+)\s*,\s*(\d+(?:\.\d+)?%)\s*,\s*\(\d+(?:\.\d+)?%\)\s*\)$`:
the parentheses around the third component are escaped, hence literal. -/
def hslFunctionRegexp : Regexp :=
  cat [str "hsl(", star isSpace, cap 1 (plus isDigit), star isSpace, lit ',',
    star isSpace, cap 2 percentage, star isSpace, lit ',',
    star isSpace, lit '(', percentage, lit ')', star isSpace, lit ')']

open Regexp in
/-- The pattern
`^hsl\(\s*(\d+)\s*,\s*(\d+(?:\.\d+)?%)\s*,\s*\(\d+(?:\.\d+)?%,\s*(\d+(?:\.\d+)?)\s*\)\s*\)$`:
it starts with `hsl(`, and a literal parenthesis opens before the third component and
closes after the alpha value. -/
def hslaFunctionRegexp : Regexp :=
  cat [str "hsl(", star isSpace, cap 1 (plus isDigit), star isSpace, lit ',',
    star isSpace, cap 2 percentage, star isSpace, lit ',',
    star isSpace, lit '(', percentage, lit ',', star isSpace, cap 3 decimal,
    star isSpace, lit ')', star isSpace, lit ')']

/-! ## The functions of `strconv` and `strings` that the parser calls -/

/-- The two causes a `*strconv.NumError` can carry here. -/
inductive NumErr where
  | ErrSyntax
  | ErrRange
deriving DecidableEq, Repr

/-- The text of `ErrSyntax` and of `ErrRange`. -/
def NumErr.text : NumErr → String
  | ErrSyntax => "invalid syntax"
  | ErrRange => "value out of range"

/-- The result of `strconv.Quote` on a string of printable ASCII characters that holds
neither a double quote nor a backslash (every string the parser converts is a capture
group made of digits, hexadecimal digits and dots): the string between double quotes. -/
def Quote (num : List Char) : String :=
  String.mk (Char.ofNat 34 :: num ++ [Char.ofNat 34])

/-- The text `(*strconv.NumError).Error` returns for the failed conversion of `num` by the
function `fn`. -/
def numErrorText (fn : String) (num : List Char) (e : NumErr) : String :=
  "strconv." ++ fn ++ ": parsing " ++ Quote num ++ ": " ++ e.text

/-- The value of a byte as a digit in `strconv.ParseUint`: `'0'..'9'` are `0..9`, a letter,
after `lower(c) = c | ('x' - 'X')`, is `10..35`; any other byte, and so every byte of the
encoding of a character outside ASCII, is no digit. -/
def digitVal (c : Char) : Option Nat :=
  let b := c.toNat
  if 128 ≤ b then none
  else if 48 ≤ b ∧ b ≤ 57 then some (b - 48)
  else if 97 ≤ (b ||| 32) ∧ (b ||| 32) ≤ 122 then some ((b ||| 32) - 97 + 10)
  else none

/-- The loop of `strconv.ParseUint` over the bytes of the string, `n` the value so far. -/
def parseUintLoop (base maxVal : Nat) : List Char → Nat → Except NumErr Nat
  | [], n => .ok n
  | c :: cs, n =>
    match digitVal c with
    | none => .error .ErrSyntax
    | some d =>
      if d ≥ base then .error .ErrSyntax
      else if n ≥ (2 ^ 64 - 1) / base + 1 then .error .ErrRange
      else
        let nb := n * base
        let n1 := (nb + d) % 2 ^ 64
        if n1 < nb ∨ n1 > maxVal then .error .ErrRange
        else parseUintLoop base maxVal cs n1

/-- The function `strconv.ParseUint(s, base, bitSize)` for an explicit base `2..36` and a
bit size `1..64`. -/
def ParseUint (s : List Char) (base bitSize : Nat) : Except NumErr Nat :=
  if s = [] then .error .ErrSyntax
  else parseUintLoop base (2 ^ bitSize - 1) s 0

/-- The function `strconv.ParseInt(s, base, bitSize)` for an explicit base and a bit size
`1..64`: a leading sign is picked off, the digits are converted unsigned, and the range of
the signed type is checked (at `bitSize = 8` a value without sign must be below `128`). -/
def ParseInt (s : List Char) (base bitSize : Nat) : Except NumErr Int :=
  if s = [] then .error .ErrSyntax
  else
    let neg : Bool := s.head? = some '-'
    let s1 := if s.head? = some '+' ∨ s.head? = some '-' then s.tail else s
    match ParseUint s1 base 64 with
    | .error .ErrSyntax => .error .ErrSyntax
    | r =>
      let un : Nat := match r with
        | .ok n => n
        | .error _ => 2 ^ 64 - 1
      let cutoff : Nat := 2 ^ (bitSize - 1)
      if !neg ∧ un ≥ cutoff then .error .ErrRange
      else if neg ∧ un > cutoff then .error .ErrRange
      else if neg then .ok (-(un : Int)) else .ok (un : Int)

/-- The number a string of decimal digits denotes. -/
def decimalValue (ds : List Char) : Nat :=
  ds.foldl (fun n c => 10 * n + (c.toNat - 48)) 0

/-- The least natural number that `float64` rounds to infinity,
`2 ^ 1024 - 2 ^ 970 = (2 ^ 54 - 1) * 2 ^ 970`. -/
def float64Overflow : Nat :=
  (2 ^ 54 - 1) * (2 ^ 194) ^ 5

/-- The function `strconv.ParseFloat(s, 64)` on a decimal numeral `\d+(?:\.\d+)?`, the only
form the parser passes to it (a capture group, its `%` trimmed): the exact value of the
numeral, where Go returns the nearest `float64`; a numeral that rounds to infinity is
`ErrRange`. The other forms Go accepts (sign, exponent, hexadecimal, `inf`, `nan`) are not
modelled and are reported as `ErrSyntax`. -/
def ParseFloat (s : List Char) : Except NumErr ℚ :=
  let ip := s.takeWhile isDigit
  let fp := (s.dropWhile isDigit).tail
  if ip = [] then .error .ErrSyntax
  else if ip.length = s.length then
    if decimalValue ip ≥ float64Overflow then .error .ErrRange
    else .ok (decimalValue ip : ℚ)
  else if (s.dropWhile isDigit).head? = some '.' ∧ fp ≠ [] ∧ fp.all isDigit then
    if decimalValue (ip ++ fp) ≥ float64Overflow * 10 ^ fp.length then .error .ErrRange
    else .ok ((decimalValue (ip ++ fp) : ℚ) / 10 ^ fp.length)
  else .error .ErrSyntax

/-- The function `strings.HasSuffix`. -/
def HasSuffix (s suffix : List Char) : Bool :=
  suffix.isSuffixOf s

/-- The function `strings.TrimSuffix`. -/
def TrimSuffix (s suffix : List Char) : List Char :=
  if HasSuffix s suffix then s.take (s.length - suffix.length) else s

/-- The function `unicode.ToLower` on one character: an ASCII capital is moved to its small
letter, another ASCII character is kept; outside ASCII Go consults the case tables of
Unicode, which are the parameter `unicodeLower`. -/
def toLowerRune (unicodeLower : Char → Char) (c : Char) : Char :=
  if c.toNat < 128 then
    if 65 ≤ c.toNat ∧ c.toNat ≤ 90 then Char.ofNat (c.toNat + 32) else c
  else unicodeLower c

/-- The function `strings.ToLower`. -/
def ToLower (unicodeLower : Char → Char) (s : String) : String :=
  String.mk (s.toList.map (toLowerRune unicodeLower))

/-- Conversion of a `float64` to an unsigned integer type of `w` bits: the fraction is
discarded. (For a value outside the range of the type the result in Go depends on the
implementation; the parser only converts values between `0` and `255`.) -/
def floatToUint (w : Nat) (f : ℚ) : Nat :=
  (if 0 ≤ f then ⌊f⌋ else ⌈f⌉).toNat % 2 ^ w

/-! ## Colour values -/

/-- The dynamic types of `color.Color` that occur: `color.RGBA` (8 bits per channel),
`color.Gray16` (the type of `color.Black` and `color.White`), `SRGBA` and `HSLA`. -/
inductive Color where
  | rgba (r g b a : Nat)
  | gray16 (y : Nat)
  | srgba (r g b a : ℚ)
  | hsla (h s l a : ℚ)
deriving DecidableEq

/-- The map `colorNamesToColorValues`, as the list of its entries. -/
def colorNamesToColorValues : List (String × Color) := [
  ("aliceblue", Color.rgba 0xF0 0xF8 0xFF 0xFF),
  ("antiquewhite", Color.rgba 0xFA 0xEB 0xD7 0xFF),
  ("aqua", Color.rgba 0x00 0xFF 0xFF 0xFF),
  ("aquamarine", Color.rgba 0x7F 0xFF 0xD4 0xFF),
  ("azure", Color.rgba 0xF0 0xFF 0xFF 0xFF),
  ("beige", Color.rgba 0xF5 0xF5 0xDC 0xFF),
  ("bisque", Color.rgba 0xFF 0xE4 0xC4 0xFF),
  ("black", Color.rgba 0x00 0x00 0x00 0xFF),
  ("blanchedalmond", Color.rgba 0xFF 0xEB 0xCD 0xFF),
  ("blue", Color.rgba 0x00 0x00 0xFF 0xFF),
  ("blueviolet", Color.rgba 0x8A 0x2B 0xE2 0xFF),
  ("brown", Color.rgba 0xA5 0x2A 0x2A 0xFF),
  ("burlywood", Color.rgba 0xDE 0xB8 0x87 0xFF),
  ("cadetblue", Color.rgba 0x5F 0x9E 0xA0 0xFF),
  ("chartreuse", Color.rgba 0x7F 0xFF 0x00 0xFF),
  ("chocolate", Color.rgba 0xD2 0x69 0x1E 0xFF),
  ("coral", Color.rgba 0xFF 0x7F 0x50 0xFF),
  ("cornflowerblue", Color.rgba 0x64 0x95 0xED 0xFF),
  ("cornsilk", Color.rgba 0xFF 0xF8 0xDC 0xFF),
  ("crimson", Color.rgba 0xDC 0x14 0x3C 0xFF),
  ("cyan", Color.rgba 0x00 0xFF 0xFF 0xFF),
  ("darkblue", Color.rgba 0x00 0x00 0x8B 0xFF),
  ("darkcyan", Color.rgba 0x00 0x8B 0x8B 0xFF),
  ("darkgoldenrod", Color.rgba 0xB8 0x86 0x0B 0xFF),
  ("darkgray", Color.rgba 0xA9 0xA9 0xA9 0xFF),
  ("darkgrey", Color.rgba 0xA9 0xA9 0xA9 0xFF),
  ("darkgreen", Color.rgba 0x00 0x64 0x00 0xFF),
  ("darkkhaki", Color.rgba 0xBD 0xB7 0x6B 0xFF),
  ("darkmagenta", Color.rgba 0x8B 0x00 0x8B 0xFF),
  ("darkolivegreen", Color.rgba 0x55 0x6B 0x2F 0xFF),
  ("darkorange", Color.rgba 0xFF 0x8C 0x00 0xFF),
  ("darkorchid", Color.rgba 0x99 0x32 0xCC 0xFF),
  ("darkred", Color.rgba 0x8B 0x00 0x00 0xFF),
  ("darksalmon", Color.rgba 0xE9 0x96 0x7A 0xFF),
  ("darkseagreen", Color.rgba 0x8F 0xBC 0x8F 0xFF),
  ("darkslateblue", Color.rgba 0x48 0x3D 0x8B 0xFF),
  ("darkslategray", Color.rgba 0x2F 0x4F 0x4F 0xFF),
  ("darkslategrey", Color.rgba 0x2F 0x4F 0x4F 0xFF),
  ("darkturquoise", Color.rgba 0x00 0xCE 0xD1 0xFF),
  ("darkviolet", Color.rgba 0x94 0x00 0xD3 0xFF),
  ("deeppink", Color.rgba 0xFF 0x14 0x93 0xFF),
  ("deepskyblue", Color.rgba 0x00 0xBF 0xFF 0xFF),
  ("dimgray", Color.rgba 0x69 0x69 0x69 0xFF),
  ("dimgrey", Color.rgba 0x69 0x69 0x69 0xFF),
  ("dodgerblue", Color.rgba 0x1E 0x90 0xFF 0xFF),
  ("firebrick", Color.rgba 0xB2 0x22 0x22 0xFF),
  ("floralwhite", Color.rgba 0xFF 0xFA 0xF0 0xFF),
  ("forestgreen", Color.rgba 0x22 0x8B 0x22 0xFF),
  ("fuchsia", Color.rgba 0xFF 0x00 0xFF 0xFF),
  ("gainsboro", Color.rgba 0xDC 0xDC 0xDC 0xFF),
  ("ghostwhite", Color.rgba 0xF8 0xF8 0xFF 0xFF),
  ("gold", Color.rgba 0xFF 0xD7 0x00 0xFF),
  ("goldenrod", Color.rgba 0xDA 0xA5 0x20 0xFF),
  ("gray", Color.rgba 0x80 0x80 0x80 0xFF),
  ("grey", Color.rgba 0x80 0x80 0x80 0xFF),
  ("green", Color.rgba 0x00 0x80 0x00 0xFF),
  ("greenyellow", Color.rgba 0xAD 0xFF 0x2F 0xFF),
  ("honeydew", Color.rgba 0xF0 0xFF 0xF0 0xFF),
  ("hotpink", Color.rgba 0xFF 0x69 0xB4 0xFF),
  ("indianred", Color.rgba 0xCD 0x5C 0x5C 0xFF),
  ("indigo", Color.rgba 0x4B 0x00 0x82 0xFF),
  ("ivory", Color.rgba 0xFF 0xFF 0xF0 0xFF),
  ("khaki", Color.rgba 0xF0 0xE6 0x8C 0xFF),
  ("lavender", Color.rgba 0xE6 0xE6 0xFA 0xFF),
  ("lavenderblush", Color.rgba 0xFF 0xF0 0xF5 0xFF),
  ("lawngreen", Color.rgba 0x7C 0xFC 0x00 0xFF),
  ("lemonchiffon", Color.rgba 0xFF 0xFA 0xCD 0xFF),
  ("lightblue", Color.rgba 0xAD 0xD8 0xE6 0xFF),
  ("lightcoral", Color.rgba 0xF0 0x80 0x80 0xFF),
  ("lightcyan", Color.rgba 0xE0 0xFF 0xFF 0xFF),
  ("lightgoldenrodyellow", Color.rgba 0xFA 0xFA 0xD2 0xFF),
  ("lightgray", Color.rgba 0xD3 0xD3 0xD3 0xFF),
  ("lightgrey", Color.rgba 0xD3 0xD3 0xD3 0xFF),
  ("lightgreen", Color.rgba 0x90 0xEE 0x90 0xFF),
  ("lightpink", Color.rgba 0xFF 0xB6 0xC1 0xFF),
  ("lightsalmon", Color.rgba 0xFF 0xA0 0x7A 0xFF),
  ("lightseagreen", Color.rgba 0x20 0xB2 0xAA 0xFF),
  ("lightskyblue", Color.rgba 0x87 0xCE 0xFA 0xFF),
  ("lightslategray", Color.rgba 0x77 0x88 0x99 0xFF),
  ("lightslategrey", Color.rgba 0x77 0x88 0x99 0xFF),
  ("lightsteelblue", Color.rgba 0xB0 0xC4 0xDE 0xFF),
  ("lightyellow", Color.rgba 0xFF 0xFF 0xE0 0xFF),
  ("lime", Color.rgba 0x00 0xFF 0x00 0xFF),
  ("limegreen", Color.rgba 0x32 0xCD 0x32 0xFF),
  ("linen", Color.rgba 0xFA 0xF0 0xE6 0xFF),
  ("magenta", Color.rgba 0xFF 0x00 0xFF 0xFF),
  ("maroon", Color.rgba 0x80 0x00 0x00 0xFF),
  ("mediumaquamarine", Color.rgba 0x66 0xCD 0xAA 0xFF),
  ("mediumblue", Color.rgba 0x00 0x00 0xCD 0xFF),
  ("mediumorchid", Color.rgba 0xBA 0x55 0xD3 0xFF),
  ("mediumpurple", Color.rgba 0x93 0x70 0xD8 0xFF),
  ("mediumseagreen", Color.rgba 0x3C 0xB3 0x71 0xFF),
  ("mediumslateblue", Color.rgba 0x7B 0x68 0xEE 0xFF),
  ("mediumspringgreen", Color.rgba 0x00 0xFA 0x9A 0xFF),
  ("mediumturquoise", Color.rgba 0x48 0xD1 0xCC 0xFF),
  ("mediumvioletred", Color.rgba 0xC7 0x15 0x85 0xFF),
  ("midnightblue", Color.rgba 0x19 0x19 0x70 0xFF),
  ("mintcream", Color.rgba 0xF5 0xFF 0xFA 0xFF),
  ("mistyrose", Color.rgba 0xFF 0xE4 0xE1 0xFF),
  ("moccasin", Color.rgba 0xFF 0xE4 0xB5 0xFF),
  ("navajowhite", Color.rgba 0xFF 0xDE 0xAD 0xFF),
  ("navy", Color.rgba 0x00 0x00 0x80 0xFF),
  ("oldlace", Color.rgba 0xFD 0xF5 0xE6 0xFF),
  ("olive", Color.rgba 0x80 0x80 0x00 0xFF),
  ("olivedrab", Color.rgba 0x6B 0x8E 0x23 0xFF),
  ("orange", Color.rgba 0xFF 0xA5 0x00 0xFF),
  ("orangered", Color.rgba 0xFF 0x45 0x00 0xFF),
  ("orchid", Color.rgba 0xDA 0x70 0xD6 0xFF),
  ("palegoldenrod", Color.rgba 0xEE 0xE8 0xAA 0xFF),
  ("palegreen", Color.rgba 0x98 0xFB 0x98 0xFF),
  ("paleturquoise", Color.rgba 0xAF 0xEE 0xEE 0xFF),
  ("palevioletred", Color.rgba 0xD8 0x70 0x93 0xFF),
  ("papayawhip", Color.rgba 0xFF 0xEF 0xD5 0xFF),
  ("peachpuff", Color.rgba 0xFF 0xDA 0xB9 0xFF),
  ("peru", Color.rgba 0xCD 0x85 0x3F 0xFF),
  ("pink", Color.rgba 0xFF 0xC0 0xCB 0xFF),
  ("plum", Color.rgba 0xDD 0xA0 0xDD 0xFF),
  ("powderblue", Color.rgba 0xB0 0xE0 0xE6 0xFF),
  ("purple", Color.rgba 0x80 0x00 0x80 0xFF),
  ("red", Color.rgba 0xFF 0x00 0x00 0xFF),
  ("rosybrown", Color.rgba 0xBC 0x8F 0x8F 0xFF),
  ("royalblue", Color.rgba 0x41 0x69 0xE1 0xFF),
  ("saddlebrown", Color.rgba 0x8B 0x45 0x13 0xFF),
  ("salmon", Color.rgba 0xFA 0x80 0x72 0xFF),
  ("sandybrown", Color.rgba 0xF4 0xA4 0x60 0xFF),
  ("seagreen", Color.rgba 0x2E 0x8B 0x57 0xFF),
  ("seashell", Color.rgba 0xFF 0xF5 0xEE 0xFF),
  ("sienna", Color.rgba 0xA0 0x52 0x2D 0xFF),
  ("silver", Color.rgba 0xC0 0xC0 0xC0 0xFF),
  ("skyblue", Color.rgba 0x87 0xCE 0xEB 0xFF),
  ("slateblue", Color.rgba 0x6A 0x5A 0xCD 0xFF),
  ("slategray", Color.rgba 0x70 0x80 0x90 0xFF),
  ("slategrey", Color.rgba 0x70 0x80 0x90 0xFF),
  ("snow", Color.rgba 0xFF 0xFA 0xFA 0xFF),
  ("springgreen", Color.rgba 0x00 0xFF 0x7F 0xFF),
  ("steelblue", Color.rgba 0x46 0x82 0xB4 0xFF),
  ("tan", Color.rgba 0xD2 0xB4 0x8C 0xFF),
  ("teal", Color.rgba 0x00 0x80 0x80 0xFF),
  ("thistle", Color.rgba 0xD8 0xBF 0xD8 0xFF),
  ("tomato", Color.rgba 0xFF 0x63 0x47 0xFF),
  ("turquoise", Color.rgba 0x40 0xE0 0xD0 0xFF),
  ("violet", Color.rgba 0xEE 0x82 0xEE 0xFF),
  ("wheat", Color.rgba 0xF5 0xDE 0xB3 0xFF),
  ("white", Color.rgba 0xFF 0xFF 0xFF 0xFF),
  ("whitesmoke", Color.rgba 0xF5 0xF5 0xF5 0xFF),
  ("yellow", Color.rgba 0xFF 0xFF 0x00 0xFF),
  ("yellowgreen", Color.rgba 0x9A 0xCD 0x32 0xFF)]

/-! ## ParseCSSColorRepresentation -/

/-- The run-time panics that occur: an index expression out of range
(`index out of range [index] with length length`) and a method call on a `nil` interface
value. -/
inductive Panic where
  | indexOutOfRange (index length : Nat)
  | nilDereference
deriving DecidableEq

/-- How a call ends: `ok v` is the return of `v` with a `nil` error, `err msg` the return of
no value and an error of text `msg`, `abort p` the run-time panic `p`. -/
inductive Outcome (α : Type) where
  | ok (v : α)
  | err (msg : String)
  | abort (p : Panic)
deriving DecidableEq

/-- Sequencing: an error or a panic ends the call. -/
def Outcome.bind {α β : Type} (x : Outcome α) (f : α → Outcome β) : Outcome β :=
  match x with
  | .ok v => f v
  | .err msg => .err msg
  | .abort p => .abort p

instance : Monad Outcome where
  pure := Outcome.ok
  bind := Outcome.bind

/-- The index expression `sub[i]` on a slice of strings. -/
def index (sub : List (List Char)) (i : Nat) : Outcome (List Char) :=
  match sub.get? i with
  | some v => .ok v
  | none => .abort (.indexOutOfRange i sub.length)

/-- One channel of the hex triplet branch: `strconv.ParseInt(sub[i], 16, 8)`, converted by
`uint8(...)`, or the error `cannot parse <word> value ... as hex triplet`. -/
def hexTripletComponent (word : String) (sub : List (List Char)) (i : Nat)
    (colorRepresentation : String) : Outcome Nat := do
  let v ← index sub i
  match ParseInt v 16 8 with
  | .ok n => .ok (n % 256).toNat
  | .error e =>
    .err ("cannot parse " ++ word ++ " value " ++ String.mk v ++ " of " ++ colorRepresentation
      ++ " as hex triplet: " ++ numErrorText "ParseInt" v e)

/-- One channel of the hex quadruplet branch: `strconv.ParseUint(sub[i], 16, 8)`, converted
by `uint8(...)`, or the error `cannot parse <word> value ... as hex quadruplet`. -/
def hexQuadrupletComponent (word : String) (sub : List (List Char)) (i : Nat)
    (colorRepresentation : String) : Outcome Nat := do
  let v ← index sub i
  match ParseUint v 16 8 with
  | .ok n => .ok (n % 256)
  | .error e =>
    .err ("cannot parse " ++ word ++ " value " ++ String.mk v ++ " of " ++ colorRepresentation
      ++ " as hex quadruplet: " ++ numErrorText "ParseUint" v e)

/-- One colour component of the `rgb()` and `rgba()` branches, read from `sub[i]`: a
percentage (at most `100`, scaled by `255 / 100` and truncated) or an integer of 8 bits.
`call` is `rgb()` or `rgba()` and `word` the colour word of the messages; the message of a
failed integer conversion quotes `sub[j]`. -/
def rgbComponent (call word : String) (sub : List (List Char)) (i j : Nat)
    (colorRepresentation : String) : Outcome Nat := do
  let v ← index sub i
  if HasSuffix v ['%'] then
    match ParseFloat (TrimSuffix v ['%']) with
    | .ok f =>
      if f > 100 then
        .err ("invalid percentage " ++ word ++ " value " ++ String.mk v ++ " in "
          ++ colorRepresentation)
      else .ok (floatToUint 8 (f / 100 * 255))
    | .error e =>
      .err ("cannot parse percentage " ++ word ++ " value " ++ String.mk v ++ " of "
        ++ colorRepresentation ++ " as an " ++ call ++ " function call: "
        ++ numErrorText "ParseFloat" (TrimSuffix v ['%']) e)
  else
    match ParseUint v 10 8 with
    | .ok n => .ok (n % 256)
    | .error e => do
      let w ← index sub j
      .err ("cannot parse integer " ++ word ++ " value " ++ String.mk w ++ " of "
        ++ colorRepresentation ++ " as an " ++ call ++ " function call: "
        ++ numErrorText "ParseUint" v e)

/-- The alpha value of the `rgba()` and `hsla()` branches, read from `sub[4]`: a number
between `0` and `1`. -/
def alphaComponent (sub : List (List Char)) (colorRepresentation : String) : Outcome ℚ := do
  let v ← index sub 4
  match ParseFloat v with
  | .ok af =>
    if af < 0 ∨ af > 1 then
      .err ("invalid alpha value " ++ String.mk v ++ " in " ++ colorRepresentation)
    else .ok af
  | .error _ =>
    .err ("cannot parse float alpha value " ++ String.mk v ++ " in " ++ colorRepresentation)

/-- The hue of the `hsl()` and `hsla()` branches, read from `sub[1]`: an integer of 16 bits,
at most `360`. -/
def hueComponent (call : String) (sub : List (List Char)) (colorRepresentation : String) :
    Outcome ℚ := do
  let v ← index sub 1
  match ParseUint v 10 16 with
  | .ok hi =>
    if hi > 360 then
      .err ("invalid hue value " ++ String.mk v ++ " for " ++ colorRepresentation)
    else .ok (hi : ℚ)
  | .error e =>
    .err ("cannot parse hue value " ++ String.mk v ++ " of " ++ colorRepresentation ++ " as "
      ++ call ++ " function call: " ++ numErrorText "ParseUint" v e)

/-- The saturation or lightness of the `hsl()` and `hsla()` branches, read from `sub[i]`: a
percentage, at most `100`, divided by `100`. The message of a failed conversion quotes
`sub[j]`. -/
def hslComponent (call word : String) (sub : List (List Char)) (i j : Nat)
    (colorRepresentation : String) : Outcome ℚ := do
  let v ← index sub i
  match ParseFloat (TrimSuffix v ['%']) with
  | .ok f =>
    if f > 100 then
      .err ("invalid " ++ word ++ " value " ++ String.mk v ++ " for " ++ colorRepresentation)
    else .ok (f / 100)
  | .error e => do
    let w ← index sub j
    .err ("cannot parse " ++ word ++ " value " ++ String.mk w ++ " of " ++ colorRepresentation
      ++ " as " ++ call ++ " function call: "
      ++ numErrorText "ParseFloat" (TrimSuffix v ['%']) e)

/-- The function `ParseCSSColorRepresentation`. The six patterns are tried in the order of
the source. In the `rgba()` branch the submatches are taken with `rgbFunctionRegexp`, and in
the `hsla()` branch with `hslFunctionRegexp`, as the source does. -/
def ParseCSSColorRepresentation (unicodeLower : Char → Char) (colorRepresentation : String) :
    Outcome Color :=
  if hexTripletRegexp.MatchString colorRepresentation then
    let hexTripletValue := hexTripletRegexp.FindStringSubmatch colorRepresentation
    do
      let r ← hexTripletComponent "red" hexTripletValue 1 colorRepresentation
      let g ← hexTripletComponent "green" hexTripletValue 2 colorRepresentation
      let b ← hexTripletComponent "blue" hexTripletValue 3 colorRepresentation
      .ok (Color.rgba r g b 0xFF)
  else if hexQuadrupletRegexp.MatchString colorRepresentation then
    let hexQuadrupletValue := hexQuadrupletRegexp.FindStringSubmatch colorRepresentation
    do
      let r ← hexQuadrupletComponent "red" hexQuadrupletValue 1 colorRepresentation
      let g ← hexQuadrupletComponent "green" hexQuadrupletValue 2 colorRepresentation
      let b ← hexQuadrupletComponent "blue" hexQuadrupletValue 3 colorRepresentation
      let a ← hexQuadrupletComponent "alpha" hexQuadrupletValue 4 colorRepresentation
      .ok (Color.rgba r g b a)
  else if rgbFunctionRegexp.MatchString colorRepresentation then
    let rgbFunctionValue := rgbFunctionRegexp.FindStringSubmatch colorRepresentation
    do
      let r ← rgbComponent "rgb()" "red" rgbFunctionValue 1 2 colorRepresentation
      let g ← rgbComponent "rgb()" "green" rgbFunctionValue 2 2 colorRepresentation
      let b ← rgbComponent "rgb()" "blue" rgbFunctionValue 3 3 colorRepresentation
      .ok (Color.rgba r g b 0xFF)
  else if rgbaFunctionRegexp.MatchString colorRepresentation then
    let rgbaFunctionValue := rgbFunctionRegexp.FindStringSubmatch colorRepresentation
    do
      let r ← rgbComponent "rgba()" "red" rgbaFunctionValue 1 2 colorRepresentation
      let g ← rgbComponent "rgba()" "red" rgbaFunctionValue 2 2 colorRepresentation
      let b ← rgbComponent "rgba()" "red" rgbaFunctionValue 3 3 colorRepresentation
      let af ← alphaComponent rgbaFunctionValue colorRepresentation
      .ok (Color.rgba r g b (floatToUint 8 (af * 255)))
  else if hslFunctionRegexp.MatchString colorRepresentation then
    let hslFunctionValue := hslFunctionRegexp.FindStringSubmatch colorRepresentation
    do
      let h ← hueComponent "hsl()" hslFunctionValue colorRepresentation
      let s ← hslComponent "hsl()" "saturation" hslFunctionValue 2 2 colorRepresentation
      let l ← hslComponent "hsl()" "lightness" hslFunctionValue 3 2 colorRepresentation
      .ok (Color.hsla h s l 1)
  else if hslaFunctionRegexp.MatchString colorRepresentation then
    let hslaFunctionValue := hslFunctionRegexp.FindStringSubmatch colorRepresentation
    do
      let h ← hueComponent "hsla()" hslaFunctionValue colorRepresentation
      let s ← hslComponent "hsla()" "saturation" hslaFunctionValue 2 2 colorRepresentation
      let l ← hslComponent "hsla()" "lightness" hslaFunctionValue 3 2 colorRepresentation
      let a ← alphaComponent hslaFunctionValue colorRepresentation
      .ok (Color.hsla h s l a)
  else
    match colorNamesToColorValues.lookup (ToLower unicodeLower colorRepresentation) with
    | some namedColorValue => .ok namedColorValue
    | none => .err ("invalid color value " ++ colorRepresentation)

/-! ## Colour spaces (`colorspaces.go`) and the methods of `image/color` -/

/-- The function `math.Mod(x, y)` for `y ≠ 0`: `x - y * trunc(x / y)`, of the sign of `x`. -/
def Mod (x y : ℚ) : ℚ :=
  x - y * (if 0 ≤ x / y then ⌊x / y⌋ else ⌈x / y⌉)

/-- The function `HSLtoRGB`. -/
def HSLtoRGB (h s l : ℚ) : ℚ × ℚ × ℚ :=
  let C := (1 - |2 * l - 1|) * s
  let H := h / 60
  let X := C * (1 - |Mod H 2 - 1|)
  let RGB : ℚ × ℚ × ℚ :=
    if H ≥ 0 ∧ H ≤ 1 then (C, X, 0)
    else if H > 1 ∧ H ≤ 2 then (X, C, 0)
    else if H > 2 ∧ H ≤ 3 then (0, C, X)
    else if H > 3 ∧ H ≤ 4 then (0, X, C)
    else if H > 4 ∧ H ≤ 5 then (X, 0, C)
    else if H > 5 ∧ H ≤ 6 then (C, 0, X)
    else (0, 0, 0)
  let m := l - C / 2
  (RGB.1 + m, RGB.2.1 + m, RGB.2.2 + m)

/-- The function `RGBtoHSL`. The saturation is the quotient `C / (1 - |2l - 1|)`, taken
whenever `l > 0 || l < 1`; where the divisor is zero Go evaluates the quotient to `NaN` or
an infinity, which no rational number stands for: the result is then `none`. -/
def RGBtoHSL (r g b : ℚ) : Option (ℚ × ℚ × ℚ) :=
  let M := max (max r g) (max g b)
  let m := min (min r g) (min g b)
  let C := M - m
  let H : ℚ :=
    if C ≠ 0 then
      if M = r then Mod ((g - b) / C) 6
      else if M = g then (b - r) / C + 2
      else if M = b then (r - g) / C + 4
      else 0
    else 0
  let h := H * 60
  let l := (M + m) / 2
  if l > 0 ∨ l < 1 then
    if 1 - |2 * l - 1| = 0 then none
    else some (h, C / (1 - |2 * l - 1|), l)
  else some (h, 0, l)

/-- The method `RGBA()` of each colour type: the four channels as 16-bit values in `uint32`.
`color.RGBA` computes `r |= r << 8`, `color.Gray16` returns `y, y, y, 0xffff`, `SRGBA`
converts `channel * 65535.0`, `HSLA` does so after `HSLtoRGB`. -/
def Color.RGBA : Color → Nat × Nat × Nat × Nat
  | .rgba r g b a => (r + r * 2 ^ 8, g + g * 2 ^ 8, b + b * 2 ^ 8, a + a * 2 ^ 8)
  | .gray16 y => (y, y, y, 0xffff)
  | .srgba r g b a =>
    (floatToUint 32 (r * 65535), floatToUint 32 (g * 65535), floatToUint 32 (b * 65535),
      floatToUint 32 (a * 65535))
  | .hsla h s l a =>
    let RGB := HSLtoRGB h s l
    (floatToUint 32 (RGB.1 * 65535), floatToUint 32 (RGB.2.1 * 65535),
      floatToUint 32 (RGB.2.2 * 65535), floatToUint 32 (a * 65535))

/-- The function `rgbaModel` of `image/color`, the conversion of `color.RGBAModel`. -/
def rgbaModel (c : Color) : Color :=
  match c with
  | .rgba _ _ _ _ => c
  | _ =>
    let q := c.RGBA
    .rgba ((q.1 / 2 ^ 8) % 2 ^ 8) ((q.2.1 / 2 ^ 8) % 2 ^ 8) ((q.2.2.1 / 2 ^ 8) % 2 ^ 8)
      ((q.2.2.2 / 2 ^ 8) % 2 ^ 8)

/-- The function `srgbaModel`, the conversion of `SRGBAModel`. -/
def srgbaModel (c : Color) : Color :=
  match c with
  | .srgba _ _ _ _ => c
  | _ =>
    let q := c.RGBA
    .srgba ((q.1 : ℚ) / 65535) ((q.2.1 : ℚ) / 65535) ((q.2.2.1 : ℚ) / 65535)
      ((q.2.2.2 : ℚ) / 65535)

/-- The function `hslaModel`, the conversion of `HSLAModel`; `none` where `RGBtoHSL` is. -/
def hslaModel (c : Color) : Option Color :=
  match c with
  | .hsla _ _ _ _ => some c
  | _ =>
    let q := c.RGBA
    match RGBtoHSL ((q.1 : ℚ) / 65535) ((q.2.1 : ℚ) / 65535) ((q.2.2.1 : ℚ) / 65535) with
    | some hsl => some (.hsla hsl.1 hsl.2.1 hsl.2.2 ((q.2.2.2 : ℚ) / 65535))
    | none => none

/-! ## Luminance, equality and the choice of a text colour -/

/-- The function `relativeLuminance`; `pow` is `math.Pow`. The tests of the three channels
are those of the source: the threshold is `0.3928`, and the test that selects the branch
of the blue channel is on the red channel. -/
def relativeLuminance (pow : ℚ → ℚ → ℚ) (c : Color) : ℚ :=
  match srgbaModel c with
  | .srgba R G B _ =>
    let r := if R ≤ 3928 / 10000 then R / (1292 / 100) else pow ((R + 55 / 1000) / (1055 / 1000)) (24 / 10)
    let g := if G ≤ 3928 / 10000 then G / (1292 / 100) else pow ((G + 55 / 1000) / (1055 / 1000)) (24 / 10)
    let b := if R ≤ 3928 / 10000 then B / (1292 / 100) else pow ((B + 55 / 1000) / (1055 / 1000)) (24 / 10)
    2126 / 10000 * r + 7152 / 10000 * g + 722 / 10000 * b
  | _ => 0

/-- The function `EqualColors`. -/
def EqualColors (c1 c2 : Color) : Bool :=
  let q1 := c1.RGBA
  let q2 := c2.RGBA
  q1.1 == q2.1 && q1.2.1 == q2.2.1 && q1.2.2.1 == q2.2.2.1 && q1.2.2.2 == q2.2.2.2

/-- The colour `color.Black`. -/
def Black : Color := .gray16 0

/-- The colour `color.White`. -/
def White : Color := .gray16 0xffff

/-- The contrast ratio the loop of `PickBestTextColor` computes for a text colour of
luminance `textL` on a background of luminance `backgroundL`. -/
def contrastRatio (backgroundL textL : ℚ) : ℚ :=
  if textL > backgroundL then (textL + 5 / 100) / (backgroundL + 5 / 100)
  else (backgroundL + 5 / 100) / (textL + 5 / 100)

/-- The loop of `PickBestTextColor` over the text colours, from the state
`(bestTextColor, bestContrastRatio)`; a `nil` colour is `none`. -/
def pickLoop (pow : ℚ → ℚ → ℚ) (backgroundL : ℚ) :
    List Color → Option Color × ℚ → Option Color × ℚ
  | [], best => best
  | textColor :: rest, best =>
    let ratio := contrastRatio backgroundL (relativeLuminance pow textColor)
    if ratio > best.2 then pickLoop pow backgroundL rest (some textColor, ratio)
    else pickLoop pow backgroundL rest best

/-- The function `PickBestTextColor`; `pow` is `math.Pow` and `sqrt` is `math.Sqrt`. The
result `none` is the `nil` colour. -/
def PickBestTextColor (pow : ℚ → ℚ → ℚ) (sqrt : ℚ → ℚ) (backgroundColor : Color)
    (textColors : List Color) : Option Color :=
  let backgroundColorRelativeLuminance := relativeLuminance pow backgroundColor
  if textColors.length = 0 then
    if backgroundColorRelativeLuminance > sqrt (105 / 100 * (5 / 100)) - 5 / 100 then some Black
    else some White
  else (pickLoop pow backgroundColorRelativeLuminance textColors (none, 0)).1

/-! ## Formatting (`fmt`) and MakeCSSColorRepresentation -/

/-- The verb `%02X` on an unsigned integer: capital hexadecimal digits, padded with zeros to
two places. -/
def format02X (n : Nat) : String :=
  let ds := (Nat.toDigits 16 n).map Char.toUpper
  String.mk (List.replicate (2 - ds.length) '0' ++ ds)

/-- The verb `%d` on an unsigned integer. -/
def formatD (n : Nat) : String :=
  String.mk (Nat.toDigits 10 n)

/-- Rounding of a rational number to the nearest integer, a tie to the even one. -/
def roundHalfEven (q : ℚ) : Int :=
  if q - ⌊q⌋ < 1 / 2 then ⌊q⌋
  else if q - ⌊q⌋ > 1 / 2 then ⌊q⌋ + 1
  else if ⌊q⌋ % 2 = 0 then ⌊q⌋ else ⌊q⌋ + 1

/-- The verb `%f` on a `float64`: the value rounded to six decimal places. -/
def formatF (f : ℚ) : String :=
  let n := (roundHalfEven (|f| * 10 ^ 6)).toNat
  let frac := Nat.toDigits 10 (n % 10 ^ 6)
  (if f < 0 then "-" else "") ++ formatD (n / 10 ^ 6) ++ "."
    ++ String.mk (List.replicate (6 - frac.length) '0' ++ frac)

/-- The constant `AnyRepresentation`. -/
def AnyRepresentation : Int := 0

/-- The constant `HexTripletRepresentation`. -/
def HexTripletRepresentation : Int := 1

/-- The constant `HexQuadrupletRepresentation`. -/
def HexQuadrupletRepresentation : Int := 2

/-- The constant `RGBFunctionRepresentation`. -/
def RGBFunctionRepresentation : Int := 3

/-- The constant `RGBAFunctionRepresentation`. -/
def RGBAFunctionRepresentation : Int := 4

/-- The constant `HSLFunctionRepresentation`. -/
def HSLFunctionRepresentation : Int := 5

/-- The constant `HSLAFunctionRepresentation`. -/
def HSLAFunctionRepresentation : Int := 6

/-- The text `rgb(%d,%d,%d)` or, when the alpha channel is not `255`, `rgba(%d,%d,%d,%f)`
of a `color.RGBA` value: the last case of the type switch of `MakeCSSColorRepresentation`. -/
def formatRGBA (R G B A : Nat) : String :=
  if A = 255 then "rgb(" ++ formatD R ++ "," ++ formatD G ++ "," ++ formatD B ++ ")"
  else
    "rgba(" ++ formatD R ++ "," ++ formatD G ++ "," ++ formatD B ++ ","
      ++ formatF ((A : ℚ) / 255) ++ ")"

/-- The function `MakeCSSColorRepresentation`. The result is `none` where the conversion
`HSLAModel.Convert` is (the text would hold a `NaN`); the type assertions of the source
cannot fail, their other cases are `none` as well. -/
def MakeCSSColorRepresentation (colorValue : Color) (colorRepresentation : Int) :
    Option String :=
  if colorRepresentation = HexTripletRepresentation then
    match rgbaModel colorValue with
    | .rgba R G B _ => some ("#" ++ format02X R ++ format02X G ++ format02X B)
    | _ => none
  else if colorRepresentation = HexQuadrupletRepresentation then
    match rgbaModel colorValue with
    | .rgba R G B A => some ("#" ++ format02X R ++ format02X G ++ format02X B ++ format02X A)
    | _ => none
  else if colorRepresentation = RGBFunctionRepresentation then
    match rgbaModel colorValue with
    | .rgba R G B _ => some ("rgb(" ++ formatD R ++ "," ++ formatD G ++ "," ++ formatD B ++ ")")
    | _ => none
  else if colorRepresentation = RGBAFunctionRepresentation then
    match rgbaModel colorValue with
    | .rgba R G B A =>
      some ("rgba(" ++ formatD R ++ "," ++ formatD G ++ "," ++ formatD B ++ ","
        ++ formatF ((A : ℚ) / 255) ++ ")")
    | _ => none
  else if colorRepresentation = HSLFunctionRepresentation then
    match hslaModel colorValue with
    | some (.hsla H S L _) =>
      some ("hsl(" ++ formatD (floatToUint 16 H) ++ "," ++ formatF (S * 100) ++ "%,"
        ++ formatF (L * 100) ++ "%)")
    | _ => none
  else if colorRepresentation = HSLAFunctionRepresentation then
    match hslaModel colorValue with
    | some (.hsla H S L A) =>
      some ("hsla(" ++ formatD (floatToUint 16 H) ++ "," ++ formatF (S * 100) ++ "%,"
        ++ formatF (L * 100) ++ "%," ++ formatF A ++ ")")
    | _ => none
  else
    match colorValue with
    | .srgba R G B A =>
      if A = 1 then
        some ("rgb(" ++ formatF (R * 100) ++ "%," ++ formatF (G * 100) ++ "%,"
          ++ formatF (B * 100) ++ "%)")
      else
        some ("rgba(" ++ formatF (R * 100) ++ "%," ++ formatF (G * 100) ++ "%,"
          ++ formatF (B * 100) ++ "%," ++ formatF A ++ ")")
    | .hsla H S L A =>
      if A = 1 then
        some ("hsl(" ++ formatD (floatToUint 16 H) ++ "," ++ formatF (S * 100) ++ "%,"
          ++ formatF (L * 100) ++ "%)")
      else
        some ("hsla(" ++ formatD (floatToUint 16 H) ++ "," ++ formatF (S * 100) ++ "%,"
          ++ formatF (L * 100) ++ "%," ++ formatF A ++ ")")
    | _ =>
      match rgbaModel colorValue with
      | .rgba R G B A => some (formatRGBA R G B A)
      | _ => none

/-! ## The template functions (`templatefuncs.go`) -/

/-- An argument of a template function, a value of type `interface{}`: a `string`, an
`int64`, a `float64`, or a value of another type, of which only the name of the type is
kept (a `nil` argument has the name `<nil>`). -/
inductive Arg where
  | str (s : String)
  | int (i : Int)
  | float (f : ℚ)
  | other (typeName : String)

/-- The text of `reflect.TypeOf(arg)` under the verb `%v`. -/
def Arg.typeName : Arg → String
  | .str _ => "string"
  | .int _ => "int64"
  | .float _ => "float64"
  | .other n => n

/-- The verb `%v` on an `int`. -/
def formatInt (i : Int) : String :=
  if i < 0 then "-" ++ formatD i.natAbs else formatD i.natAbs

/-- The `return MakeCSSColorRepresentation(c, AnyRepresentation), nil` of the template
functions. -/
def returnAny (c : Color) : Outcome (Option String) :=
  .ok (MakeCSSColorRepresentation c AnyRepresentation)

/-- The error `bad argument #n (invalid <word> value v)`. -/
def invalidValue (n : Nat) (word value : String) : Outcome (Option String) :=
  .err ("bad argument #" ++ formatD n ++ " (invalid " ++ word ++ " value " ++ value ++ ")")

/-- The error `bad argument #n (expected <types>, got <type of the argument>)`. -/
def expected (n : Nat) (types : String) (arg : Arg) : Outcome (Option String) :=
  .err ("bad argument #" ++ formatD n ++ " (expected " ++ types ++ ", got " ++ arg.typeName
    ++ ")")

/-- The body of the loop of `TweakColorTemplateFunc` for the parameter name `name`, already
in lower case, and the value `value = args[index+1]`: the outcome of the `return` the body
executes, or `none` when no case of the switch matches and the loop goes on. `formatG` is
the verb `%v` on a `float64`. The value `ok none` is a text outside the model, see
`MakeCSSColorRepresentation`. -/
def tweakStep (formatG : ℚ → String) (sourceColor : Color) (name : String) (index : Nat)
    (value : Arg) : Option (Outcome (Option String)) :=
  if name = "r" ∨ name = "red" then
    match value with
    | .int v =>
      if v < 0 ∨ v > 255 then some (invalidValue (index + 2) "red" (formatInt v))
      else
        match rgbaModel sourceColor with
        | .rgba _ G B A => some (returnAny (.rgba (v % 256).toNat G B A))
        | _ => some (.ok none)
    | .float v =>
      if v < 0 ∨ v > 1 then some (invalidValue (index + 2) "red" (formatG v))
      else
        match srgbaModel sourceColor with
        | .srgba _ G B A => some (returnAny (.srgba v G B A))
        | _ => some (.ok none)
    | a => some (expected (index + 2) "int64 or float64" a)
  else if name = "g" ∨ name = "green" then
    match value with
    | .int v =>
      if v < 0 ∨ v > 255 then some (invalidValue (index + 2) "green" (formatInt v))
      else
        match rgbaModel sourceColor with
        | .rgba R _ B A => some (returnAny (.rgba R (v % 256).toNat B A))
        | _ => some (.ok none)
    | .float v =>
      if v < 0 ∨ v > 1 then some (invalidValue (index + 2) "red" (formatG v))
      else
        match srgbaModel sourceColor with
        | .srgba R _ B A => some (returnAny (.srgba R v B A))
        | _ => some (.ok none)
    | a => some (expected (index + 2) "int64 or float64" a)
  else if name = "b" ∨ name = "blue" then
    match value with
    | .int v =>
      if v < 0 ∨ v > 255 then some (invalidValue (index + 2) "blue" (formatInt v))
      else
        match rgbaModel sourceColor with
        | .rgba R G _ A => some (returnAny (.rgba R G (v % 256).toNat A))
        | _ => some (.ok none)
    | .float v =>
      if v < 0 ∨ v > 1 then some (invalidValue (index + 2) "blue" (formatG v))
      else
        match srgbaModel sourceColor with
        | .srgba R G _ A => some (returnAny (.srgba R G v A))
        | _ => some (.ok none)
    | a => some (expected (index + 2) "int64 or float64" a)
  else if name = "h" ∨ name = "hue" then
    match value with
    | .int v =>
      if v < 0 ∨ v > 360 then some (invalidValue (index + 2) "hue" (formatInt v))
      else
        match hslaModel sourceColor with
        | some (.hsla _ S L A) => some (returnAny (.hsla (v : ℚ) S L A))
        | _ => some (.ok none)
    | a => some (expected (index + 2) "int64" a)
  else if name = "s" ∨ name = "saturation" then
    match value with
    | .float v =>
      if v < 0 ∨ v > 1 then some (invalidValue (index + 2) "saturation" (formatG v))
      else
        match hslaModel sourceColor with
        | some (.hsla H _ L A) => some (returnAny (.hsla H v L A))
        | _ => some (.ok none)
    | a => some (expected (index + 2) "int64" a)
  else if name = "l" ∨ name = "lightness" then
    match value with
    | .float v =>
      if v < 0 ∨ v > 1 then some (invalidValue (index + 2) "lightness" (formatG v))
      else
        match hslaModel sourceColor with
        | some (.hsla H _ L A) => some (returnAny (.hsla H v L A))
        | _ => some (.ok none)
    | a => some (expected (index + 2) "int64" a)
  else if name = "a" ∨ name = "alpha" then
    match value with
    | .float v =>
      if v < 0 ∨ v > 1 then some (invalidValue (index + 2) "lightness" (formatG v))
      else
        match srgbaModel sourceColor with
        | .srgba R G B _ => some (returnAny (.srgba R G B v))
        | _ => some (.ok none)
    | a => some (expected (index + 2) "int64" a)
  else none

/-- The loop `for index := 1; index < len(args)-1; index += 2` of `TweakColorTemplateFunc`,
from `index`, with the `return` that follows it. The first argument bounds the number of
iterations; `len(args)` is enough. -/
def tweakLoop (unicodeLower : Char → Char) (formatG : ℚ → String) (args : List Arg)
    (sourceColor : Color) : Nat → Nat → Outcome (Option String)
  | 0, _ => .err "invalid number of arguments given"
  | fuel + 1, index =>
    if index < args.length - 1 then
      match args.get? index, args.get? (index + 1) with
      | some (.str colorParameterName), some value =>
        match tweakStep formatG sourceColor (ToLower unicodeLower colorParameterName) index
          value with
        | some out => out
        | none => tweakLoop unicodeLower formatG args sourceColor fuel (index + 2)
      | some a, some _ => expected (index + 2) "string" a
      | _, _ => .abort (.indexOutOfRange (index + 1) args.length)
    else .err "invalid number of arguments given"

/-- The function `TweakColorTemplateFunc`. The source colour is read from `args[1]`, and the
loop over the name and value pairs starts at `args[1]` too, as in the source. The value
`ok none` is a text outside the model, see `MakeCSSColorRepresentation`. -/
def TweakColorTemplateFunc (unicodeLower : Char → Char) (formatG : ℚ → String)
    (args : List Arg) : Outcome (Option String) :=
  if args.length ≥ 3 ∧ args.length % 2 = 1 then
    match args.get? 1 with
    | some (.str sourceColorArgument) =>
      match ParseCSSColorRepresentation unicodeLower sourceColorArgument with
      | .ok sourceColor => tweakLoop unicodeLower formatG args sourceColor args.length 1
      | .err msg => .err ("cannot parse source color: " ++ msg)
      | .abort p => .abort p
    | some a => .err ("bad argument #1 (expected string, got " ++ a.typeName ++ ")")
    | none => .abort (.indexOutOfRange 1 args.length)
  else .err "invalid number of arguments given"

/-- The loop `for index := 1; index < len(args); index++` of
`PickBestTextColorTemplateFunc` over the arguments `rest = args[index:]`, `textColors` the
colours appended so far. For an argument that is no string the message of the error
evaluates `arg[index]` on the empty string `arg`. -/
def textColorsLoop (unicodeLower : Char → Char) :
    List Arg → Nat → List Color → Outcome (List Color)
  | [], _, textColors => .ok textColors
  | .str textColorArgument :: rest, index, textColors =>
    match ParseCSSColorRepresentation unicodeLower textColorArgument with
    | .ok textColor => textColorsLoop unicodeLower rest (index + 1) (textColors ++ [textColor])
    | .err msg => .err ("cannot parse text color #" ++ formatD (index + 1) ++ ": " ++ msg)
    | .abort p => .abort p
  | _ :: _, index, _ => .abort (.indexOutOfRange index 0)

/-- The `return MakeCSSColorRepresentation(PickBestTextColor(...), AnyRepresentation), nil`
of `PickBestTextColorTemplateFunc`: on the `nil` colour the conversion to `color.RGBA`
calls a method of a `nil` interface value. -/
def returnPicked (picked : Option Color) : Outcome (Option String) :=
  match picked with
  | some c => returnAny c
  | none => .abort .nilDereference

/-- The function `PickBestTextColorTemplateFunc`. The background colour is read from
`args[1]`, as in the source. -/
def PickBestTextColorTemplateFunc (unicodeLower : Char → Char) (pow : ℚ → ℚ → ℚ)
    (sqrt : ℚ → ℚ) (args : List Arg) : Outcome (Option String) :=
  if args.length ≥ 1 then
    match args.get? 1 with
    | none => .abort (.indexOutOfRange 1 args.length)
    | some (.str backgroundColorArgument) =>
      match ParseCSSColorRepresentation unicodeLower backgroundColorArgument with
      | .err msg => .err ("cannot parse background color: " ++ msg)
      | .abort p => .abort p
      | .ok backgroundColor =>
        if args.length = 1 then returnPicked (PickBestTextColor pow sqrt backgroundColor [])
        else
          match textColorsLoop unicodeLower (args.drop 1) 1 [] with
          | .ok textColors =>
            returnPicked (PickBestTextColor pow sqrt backgroundColor textColors)
          | .err msg => .err msg
          | .abort p => .abort p
    | some a => .err ("bad argument #1 (expected string, got " ++ a.typeName ++ ")")
  else .err "invalid number of arguments given"

/-! ## Definitions used in the statements -/

deriving instance DecidableEq for Except

/-- The value of a hexadecimal digit. -/
def hexValue (c : Char) : Nat :=
  if '0' ≤ c ∧ c ≤ '9' then c.toNat - 48
  else if 'a' ≤ c ∧ c ≤ 'f' then c.toNat - 87
  else c.toNat - 55

/-- The characters of the class `[a-fA-F0-9]`. -/
def hexChars : List Char :=
  "0123456789abcdefABCDEF".toList

/-- The text of the error of the hex triplet branch for the channel `word` whose two digits
`digits` are out of the range of `strconv.ParseInt(_, 16, 8)`. -/
def hexTripletRangeError (word : String) (digits : List Char) (colorRepresentation : String) :
    String :=
  "cannot parse " ++ word ++ " value " ++ String.mk digits ++ " of " ++ colorRepresentation
    ++ " as hex triplet: " ++ numErrorText "ParseInt" digits .ErrRange

/-- A decimal numeral `\d+(?:\.\d+)?`, as the percentages of the claims are written. -/
def isDecimalNumeral (s : List Char) : Bool :=
  let ip := s.takeWhile isDigit
  let rest := s.dropWhile isDigit
  !ip.isEmpty && (rest.isEmpty || (rest.head? == some '.' && !rest.tail.isEmpty
    && rest.tail.all isDigit))

/-- The least number of occurrences of the character `c` in a string that an expression
matches. -/
def Regexp.minCount (c : Char) : Regexp → Nat
  | .lit x => if x = c then 1 else 0
  | .cls _ => 0
  | .eps => 0
  | .seq a b => minCount c a + minCount c b
  | .alt a b => min (minCount c a) (minCount c b)
  | .star _ => 0
  | .cap _ a => minCount c a


/-- No one of the six patterns matches the string. -/
def matchesNoPattern (s : String) : Bool :=
  !Regexp.MatchString hexTripletRegexp s && !Regexp.MatchString hexQuadrupletRegexp s
    && !Regexp.MatchString rgbFunctionRegexp s && !Regexp.MatchString rgbaFunctionRegexp s
    && !Regexp.MatchString hslFunctionRegexp s && !Regexp.MatchString hslaFunctionRegexp s

/-- The text `hsl(h,s%,l%)`. -/
def hslText (h s l : List Char) : String :=
  String.mk ("hsl(".toList ++ h ++ [','] ++ s ++ ['%', ','] ++ l ++ ['%', ')'])

/-- The colour is of the type `color.RGBA`. -/
def Color.isRGBA : Color → Bool
  | .rgba _ _ _ _ => true
  | _ => false

/-- The reference algorithm of the specification for the conversion of HSL to RGB, with
closed-open sextants: `C = (1 - |2l - 1|) * s`, `H' = h / 60`,
`X = C * (1 - |H' mod 2 - 1|)`, the base triple chosen by the sextant of `H'`, and the
offset `m = l - C / 2` added to each channel. -/
def referenceHSLtoRGB (h s l : ℚ) : ℚ × ℚ × ℚ :=
  let C := (1 - |2 * l - 1|) * s
  let H' := h / 60
  let X := C * (1 - |(H' - 2 * ⌊H' / 2⌋) - 1|)
  let base : ℚ × ℚ × ℚ :=
    if 0 ≤ H' ∧ H' < 1 then (C, X, 0)
    else if 1 ≤ H' ∧ H' < 2 then (X, C, 0)
    else if 2 ≤ H' ∧ H' < 3 then (0, C, X)
    else if 3 ≤ H' ∧ H' < 4 then (0, X, C)
    else if 4 ≤ H' ∧ H' < 5 then (X, 0, C)
    else if 5 ≤ H' ∧ H' < 6 then (C, 0, X)
    else (0, 0, 0)
  let m := l - C / 2
  (base.1 + m, base.2.1 + m, base.2.2 + m)

/-- The linearisation of one channel in the specification: `x / 12.92` for
`x ≤ 0.04045`, and `((x + 0.055) / 1.055) ^ 2.4` otherwise; `pow` is the power function. -/
def referenceLinear (pow : ℚ → ℚ → ℚ) (x : ℚ) : ℚ :=
  if x ≤ 4045 / 100000 then x / (1292 / 100)
  else pow ((x + 55 / 1000) / (1055 / 1000)) (24 / 10)

/-- The relative luminance of the specification for normalised channels `R`, `G`, `B`:
each channel linearised on its own, weighted by `0.2126`, `0.7152` and `0.0722`. -/
def referenceLuminance (pow : ℚ → ℚ → ℚ) (R G B : ℚ) : ℚ :=
  2126 / 10000 * referenceLinear pow R + 7152 / 10000 * referenceLinear pow G
    + 722 / 10000 * referenceLinear pow B

/-- The contrast ratio of the text colour `c` against a background of luminance
`backgroundL`, as `PickBestTextColor` computes it. -/
def ratioOf (pow : ℚ → ℚ → ℚ) (backgroundL : ℚ) (c : Color) : ℚ :=
  contrastRatio backgroundL (relativeLuminance pow c)

/-- The normalised channels of a colour, those of `SRGBAModel.Convert(c)`, lie in
`[0, 1]`. -/
def normalisedInUnit (c : Color) : Prop :=
  match srgbaModel c with
  | .srgba R G B A => (0 ≤ R ∧ R ≤ 1) ∧ (0 ≤ G ∧ G ≤ 1) ∧ (0 ≤ B ∧ B ≤ 1) ∧ (0 ≤ A ∧ A ≤ 1)
  | _ => False

/-! # Theorems -/

/-! ## Lemmas on the matcher -/

namespace Regexp

theorem starRun_some {β : Type} (p : Char → Bool) (c : Char) (s : List Char)
    (k : List Char → Option β) (res : β) (h : starRun p s k = some res) :
    ∃ v, k v = some res ∧ v.count c ≤ s.count c := by
  induction s with
  | nil => exact ⟨[], by simpa [starRun] using h, le_refl _⟩
  | cons x xs ih =>
    rw [starRun] at h
    by_cases hp : p x = true
    · rw [if_pos hp] at h
      cases hs : starRun p xs k with
      | some r =>
        rw [hs] at h
        obtain ⟨v, hv, hc⟩ := ih (by rw [hs]; exact h)
        exact ⟨v, hv, le_trans hc (by rw [List.count_cons]; omega)⟩
      | none =>
        rw [hs] at h
        exact ⟨x :: xs, h, le_refl _⟩
    · rw [if_neg hp] at h
      exact ⟨x :: xs, h, le_refl _⟩

theorem run_some (c : Char) (r : Regexp) : ∀ (s : List Char) (caps : List (List Char))
    (k : List Char → List (List Char) → Option (List (List Char))) (res : List (List Char)),
    run r s caps k = some res →
    ∃ v caps', caps'.length = caps.length ∧ k v caps' = some res
      ∧ minCount c r + v.count c ≤ s.count c := by
  induction r with
  | lit x =>
    intro s caps k res h
    cases s with
    | nil => simp [run] at h
    | cons y ys =>
      simp only [run] at h
      by_cases hy : y = x
      · rw [if_pos hy] at h
        refine ⟨ys, caps, rfl, h, ?_⟩
        subst hy
        simp only [minCount, List.count_cons, beq_iff_eq]
        omega
      · rw [if_neg hy] at h
        exact absurd h (by simp)
  | cls p =>
    intro s caps k res h
    cases s with
    | nil => simp [run] at h
    | cons y ys =>
      simp only [run] at h
      by_cases hy : p y = true
      · rw [if_pos hy] at h
        refine ⟨ys, caps, rfl, h, ?_⟩
        simp only [minCount, List.count_cons]
        omega
      · rw [if_neg hy] at h
        exact absurd h (by simp)
  | eps =>
    intro s caps k res h
    exact ⟨s, caps, rfl, by simpa [run] using h, by simp [minCount]⟩
  | seq a b iha ihb =>
    intro s caps k res h
    simp only [run] at h
    obtain ⟨v1, caps1, hl1, hk1, hc1⟩ := iha s caps _ res h
    obtain ⟨v, caps', hl, hk, hc⟩ := ihb v1 caps1 k res hk1
    exact ⟨v, caps', hl.trans hl1, hk, by simp only [minCount]; omega⟩
  | alt a b iha ihb =>
    intro s caps k res h
    simp only [run] at h
    cases ha : run a s caps k with
    | some r =>
      rw [ha] at h
      obtain ⟨v, caps', hl, hk, hc⟩ := iha s caps k res (by rw [ha]; exact h)
      exact ⟨v, caps', hl, hk, by simp only [minCount]; omega⟩
    | none =>
      rw [ha] at h
      obtain ⟨v, caps', hl, hk, hc⟩ := ihb s caps k res h
      exact ⟨v, caps', hl, hk, by simp only [minCount]; omega⟩
  | star p =>
    intro s caps k res h
    simp only [run] at h
    obtain ⟨v, hv, hc⟩ := starRun_some p c s _ res h
    exact ⟨v, caps, rfl, hv, by simp only [minCount]; omega⟩
  | cap i a iha =>
    intro s caps k res h
    simp only [run] at h
    obtain ⟨v, caps1, hl, hk, hc⟩ := iha s caps _ res h
    exact ⟨v, _, by rw [List.length_set]; exact hl, hk, by simpa [minCount] using hc⟩

theorem exec_some (c : Char) (r : Regexp) (s : List Char) (caps : List (List Char))
    (h : exec r s = some caps) :
    caps.length = numSubexp r + 1 ∧ minCount c r ≤ s.count c := by
  obtain ⟨v, caps', hl, hk, hc⟩ := run_some c r s _ atEnd caps h
  unfold atEnd at hk
  by_cases hv : v = []
  · rw [if_pos hv] at hk
    subst hv
    simp only [Option.some.injEq] at hk
    subst hk
    exact ⟨by simpa using hl, by simpa using hc⟩
  · rw [if_neg hv] at hk
    exact absurd hk (by simp)

theorem matchString_false_of_count (c : Char) (r : Regexp) (s : String)
    (h : s.toList.count c < minCount c r) : MatchString r s = false := by
  unfold MatchString
  cases he : exec r s.toList with
  | none => rfl
  | some caps => exact absurd (exec_some c r _ _ he).2 (by omega)

theorem findStringSubmatch_length (r : Regexp) (s : String) (h : MatchString r s = true) :
    (FindStringSubmatch r s).length = numSubexp r + 1 := by
  unfold MatchString at h
  unfold FindStringSubmatch
  cases he : exec r s.toList with
  | none => rw [he] at h; simp at h
  | some caps => simp [(exec_some 'x' r _ _ he).1]

theorem findStringSubmatch_nil (r : Regexp) (s : String) (h : MatchString r s = false) :
    FindStringSubmatch r s = [] := by
  unfold MatchString at h
  unfold FindStringSubmatch
  cases he : exec r s.toList with
  | none => rfl
  | some caps => rw [he] at h; simp at h

end Regexp

/-! ## Lemmas on pairs of hexadecimal digits -/

theorem mem_hexChars {c : Char} (h : isHexDigit c = true) : c ∈ hexChars := by
  have hc : c = Char.ofNat c.toNat := by simp
  simp only [isHexDigit, decide_eq_true_eq, Char.le_def, UInt32.le_def] at h
  have h2 : (97 ≤ c.toNat ∧ c.toNat ≤ 102) ∨ (65 ≤ c.toNat ∧ c.toNat ≤ 70) ∨ (48 ≤ c.toNat ∧ c.toNat ≤ 57) := h
  rw [hc]
  rcases h2 with ⟨a, b⟩ | ⟨a, b⟩ | ⟨a, b⟩ <;> interval_cases c.toNat <;> decide

set_option maxRecDepth 100000 in
theorem hexPair_facts : ∀ a ∈ hexChars, ∀ b ∈ hexChars,
    ParseUint [a, b] 16 8 = .ok (16 * hexValue a + hexValue b)
      ∧ 16 * hexValue a + hexValue b < 256
      ∧ format02X (16 * hexValue a + hexValue b) = String.mk [a.toUpper, b.toUpper] := by
  decide

theorem hexTriplet_no_match (d1 d2 d3 d4 d5 d6 d7 d8 : Char) :
    Regexp.MatchString hexTripletRegexp (String.mk ['#', d1, d2, d3, d4, d5, d6, d7, d8]) = false := by
  simp [Regexp.MatchString, Regexp.exec, Regexp.run, hexTripletRegexp, hexPair, Regexp.cat, Regexp.atEnd]

theorem hexQuadruplet_find (d1 d2 d3 d4 d5 d6 d7 d8 : Char)
    (h1 : isHexDigit d1 = true) (h2 : isHexDigit d2 = true) (h3 : isHexDigit d3 = true)
    (h4 : isHexDigit d4 = true) (h5 : isHexDigit d5 = true) (h6 : isHexDigit d6 = true)
    (h7 : isHexDigit d7 = true) (h8 : isHexDigit d8 = true) :
    Regexp.exec hexQuadrupletRegexp ['#', d1, d2, d3, d4, d5, d6, d7, d8] 
      = some [[], [d1, d2], [d3, d4], [d5, d6], [d7, d8]] := by
  simp [Regexp.exec, Regexp.run, hexQuadrupletRegexp, hexPair, Regexp.cat, Regexp.atEnd, Regexp.numSubexp, h1, h2, h3, h4, h5, h6, h7, h8, List.replicate]



theorem hexQuadruplet_submatch (d1 d2 d3 d4 d5 d6 d7 d8 : Char)
    (h1 : isHexDigit d1 = true) (h2 : isHexDigit d2 = true) (h3 : isHexDigit d3 = true)
    (h4 : isHexDigit d4 = true) (h5 : isHexDigit d5 = true) (h6 : isHexDigit d6 = true)
    (h7 : isHexDigit d7 = true) (h8 : isHexDigit d8 = true) :
    Regexp.MatchString hexQuadrupletRegexp (String.mk ['#', d1, d2, d3, d4, d5, d6, d7, d8])
        = true
      ∧ Regexp.FindStringSubmatch hexQuadrupletRegexp
          (String.mk ['#', d1, d2, d3, d4, d5, d6, d7, d8])
        = [['#', d1, d2, d3, d4, d5, d6, d7, d8], [d1, d2], [d3, d4], [d5, d6], [d7, d8]] := by
  simp [Regexp.MatchString, Regexp.FindStringSubmatch, String.toList,
    hexQuadruplet_find, h1, h2, h3, h4, h5, h6, h7, h8]

/-- C4: a string `#RRGGBBAA` of eight hexadecimal digits, of either case, is parsed to the
colour of its four bytes, and that colour is formatted as a hex quadruplet to the same
string with its digits in upper case. -/
theorem hex_quadruplet (unicodeLower : Char → Char) (d1 d2 d3 d4 d5 d6 d7 d8 : Char)
    (h1 : isHexDigit d1 = true) (h2 : isHexDigit d2 = true) (h3 : isHexDigit d3 = true)
    (h4 : isHexDigit d4 = true) (h5 : isHexDigit d5 = true) (h6 : isHexDigit d6 = true)
    (h7 : isHexDigit d7 = true) (h8 : isHexDigit d8 = true) :
    ParseCSSColorRepresentation unicodeLower (String.mk ['#', d1, d2, d3, d4, d5, d6, d7, d8])
        = .ok (.rgba (16 * hexValue d1 + hexValue d2) (16 * hexValue d3 + hexValue d4)
            (16 * hexValue d5 + hexValue d6) (16 * hexValue d7 + hexValue d8))
      ∧ MakeCSSColorRepresentation
          (.rgba (16 * hexValue d1 + hexValue d2) (16 * hexValue d3 + hexValue d4)
            (16 * hexValue d5 + hexValue d6) (16 * hexValue d7 + hexValue d8))
          HexQuadrupletRepresentation
        = some (String.mk ('#' :: [d1, d2, d3, d4, d5, d6, d7, d8].map Char.toUpper)) := by
  obtain ⟨p1, b1, f1⟩ := hexPair_facts d1 (mem_hexChars h1) d2 (mem_hexChars h2)
  obtain ⟨p2, b2, f2⟩ := hexPair_facts d3 (mem_hexChars h3) d4 (mem_hexChars h4)
  obtain ⟨p3, b3, f3⟩ := hexPair_facts d5 (mem_hexChars h5) d6 (mem_hexChars h6)
  obtain ⟨p4, b4, f4⟩ := hexPair_facts d7 (mem_hexChars h7) d8 (mem_hexChars h8)
  obtain ⟨hm, hf⟩ := hexQuadruplet_submatch d1 d2 d3 d4 d5 d6 d7 d8 h1 h2 h3 h4 h5 h6 h7 h8
  constructor
  · unfold ParseCSSColorRepresentation
    rw [if_neg (by simp [hexTriplet_no_match]), if_pos hm]
    simp only [hf, hexQuadrupletComponent, index, bind, Outcome.bind, List.get?, p1, p2, p3, p4,
      Nat.mod_eq_of_lt b1, Nat.mod_eq_of_lt b2, Nat.mod_eq_of_lt b3, Nat.mod_eq_of_lt b4]
  · simp only [MakeCSSColorRepresentation, rgbaModel, f1, f2, f3, f4]
    rfl

/-- Witness of `hex_quadruplet` at `#11223344`. -/
theorem hex_quadruplet_witness :
    ParseCSSColorRepresentation id "#11223344" = .ok (.rgba 0x11 0x22 0x33 0x44)
      ∧ MakeCSSColorRepresentation (.rgba 0x11 0x22 0x33 0x44) HexQuadrupletRepresentation
        = some "#11223344" :=
  hex_quadruplet id '1' '1' '2' '2' '3' '3' '4' '4' (by decide) (by decide) (by decide)
    (by decide) (by decide) (by decide) (by decide) (by decide)

/-! ## The parser on concrete inputs -/

/-- C1: the parser is not total. On `rgb(10%,20,30)` and on `hsl(120,50%,(50%))` it
indexes position 3 of a submatch slice of length 3, on `rgba(1,2,3,0.5)` position 1 of the
`nil` slice: each call ends in a run-time panic. -/
theorem parse_aborts (unicodeLower : Char → Char) :
    ParseCSSColorRepresentation unicodeLower "rgb(10%,20,30)"
        = .abort (.indexOutOfRange 3 3)
      ∧ ParseCSSColorRepresentation unicodeLower "rgba(1,2,3,0.5)"
        = .abort (.indexOutOfRange 1 0)
      ∧ ParseCSSColorRepresentation unicodeLower "hsl(120,50%,(50%))"
        = .abort (.indexOutOfRange 3 3) := by
  refine ⟨?_, ?_, ?_⟩ <;> with_unfolding_all rfl

/-- C2: on `#336699` the parser returns an error and no colour: the blue channel `99` is
`153`, outside the range of `strconv.ParseInt(_, 16, 8)`. -/
theorem parse_hex_triplet_336699 (unicodeLower : Char → Char) :
    ParseCSSColorRepresentation unicodeLower "#336699"
      = .err ("cannot parse blue value 99 of #336699 as hex triplet: "
          ++ "strconv.ParseInt: parsing " ++ Quote "99".toList ++ ": value out of range") := by
  rfl

/-- C3: formatting and parsing back fails. `RGBA(51,102,153,255)` is formatted as `#336699`
and as `rgb(51,102,153)`, which the parser rejects with an error, and as
`rgba(51,102,153,1.000000)`, on which the parser panics. -/
theorem format_then_parse_fails (unicodeLower : Char → Char) :
    MakeCSSColorRepresentation (.rgba 51 102 153 255) HexTripletRepresentation
        = some "#336699"
      ∧ (∃ msg, ParseCSSColorRepresentation unicodeLower "#336699" = .err msg)
      ∧ MakeCSSColorRepresentation (.rgba 51 102 153 255) RGBFunctionRepresentation
        = some "rgb(51,102,153)"
      ∧ ParseCSSColorRepresentation unicodeLower "rgb(51,102,153)"
        = .err "invalid color value rgb(51,102,153)"
      ∧ MakeCSSColorRepresentation (.rgba 51 102 153 255) RGBAFunctionRepresentation
        = some "rgba(51,102,153,1.000000)"
      ∧ ParseCSSColorRepresentation unicodeLower "rgba(51,102,153,1.000000)"
        = .abort (.indexOutOfRange 1 0) := by
  refine ⟨rfl, ⟨_, rfl⟩, rfl, rfl, ?_, rfl⟩
  with_unfolding_all rfl

/-- C5: `rgb(51,102,153)` matches no pattern (the first group of the `rgb()` pattern admits
no integer) and is rejected as an invalid colour value; on `rgb(100%,0%,0%)` the parser
panics at the index of the third component. -/
theorem parse_rgb_function (unicodeLower : Char → Char) :
    ParseCSSColorRepresentation unicodeLower "rgb(51,102,153)"
        = .err "invalid color value rgb(51,102,153)"
      ∧ ParseCSSColorRepresentation unicodeLower "rgb(100%,0%,0%)"
        = .abort (.indexOutOfRange 3 3) := by
  refine ⟨rfl, ?_⟩
  with_unfolding_all rfl

/-- C6: `hsl(120,50%,50%)` matches no pattern (the `hsl()` pattern wants the third component
between literal parentheses) and is rejected as an invalid colour value: no `HSLA` colour is
returned. -/
theorem parse_hsl_function (unicodeLower : Char → Char) :
    ParseCSSColorRepresentation unicodeLower "hsl(120,50%,50%)"
      = .err "invalid color value hsl(120,50%,50%)" := by
  rfl

/-- C9: on `rgba(300,0,0,1)` the parser returns no error: it panics, indexing position 1 of
the `nil` slice that `rgbFunctionRegexp` yields on a string of the `rgba()` pattern. -/
theorem parse_rgba_300 (unicodeLower : Char → Char) :
    Regexp.MatchString rgbaFunctionRegexp "rgba(300,0,0,1)" = true
      ∧ Regexp.FindStringSubmatch rgbFunctionRegexp "rgba(300,0,0,1)" = []
      ∧ ParseCSSColorRepresentation unicodeLower "rgba(300,0,0,1)"
        = .abort (.indexOutOfRange 1 0) := by
  refine ⟨rfl, rfl, rfl⟩

/-- C10: the table maps `mediumpurple` to `#9370D8` and `palevioletred` to `#D87093`, not to
the values `#9370DB` and `#DB7093` of the CSS list; the two spellings of each grey have the
same entry. -/
theorem named_colour_table :
    colorNamesToColorValues.lookup "mediumpurple" = some (.rgba 0x93 0x70 0xD8 0xFF)
      ∧ colorNamesToColorValues.lookup "mediumpurple" ≠ some (.rgba 0x93 0x70 0xDB 0xFF)
      ∧ colorNamesToColorValues.lookup "palevioletred" = some (.rgba 0xD8 0x70 0x93 0xFF)
      ∧ colorNamesToColorValues.lookup "palevioletred" ≠ some (.rgba 0xDB 0x70 0x93 0xFF)
      ∧ colorNamesToColorValues.lookup "gray" = colorNamesToColorValues.lookup "grey"
      ∧ colorNamesToColorValues.lookup "darkgray" = colorNamesToColorValues.lookup "darkgrey"
      ∧ colorNamesToColorValues.lookup "darkslategray"
        = colorNamesToColorValues.lookup "darkslategrey"
      ∧ colorNamesToColorValues.lookup "dimgray" = colorNamesToColorValues.lookup "dimgrey"
      ∧ colorNamesToColorValues.lookup "lightgray"
        = colorNamesToColorValues.lookup "lightgrey"
      ∧ colorNamesToColorValues.lookup "lightslategray"
        = colorNamesToColorValues.lookup "lightslategrey"
      ∧ colorNamesToColorValues.lookup "slategray"
        = colorNamesToColorValues.lookup "slategrey" := by
  decide


/-! ## Lemmas on the parser -/

theorem Outcome.bind_eq_ok {α β : Type} (x : Outcome α) (f : α → Outcome β) (v : β) :
    x.bind f = .ok v ↔ ∃ a, x = .ok a ∧ f a = .ok v := by
  cases x <;> simp [Outcome.bind]

theorem lookup_mem {α : Type} (k : String) (v : α) (l : List (String × α))
    (h : l.lookup k = some v) : (k, v) ∈ l := by
  induction l with
  | nil => simp [List.lookup] at h
  | cons p ps ih =>
    obtain ⟨a, b⟩ := p
    simp only [List.lookup] at h
    by_cases hk : k = a
    · subst hk
      simp only [beq_self_eq_true] at h
      simp only [Option.some.injEq] at h
      subst h
      exact List.mem_cons_self _ _
    · have : (k == a) = false := by simpa using hk
      rw [this] at h
      exact List.mem_cons_of_mem _ (ih h)

set_option maxRecDepth 100000 in
theorem table_is_rgba : ∀ p ∈ colorNamesToColorValues, p.2.isRGBA = true := by
  decide

set_option maxRecDepth 100000 in
theorem table_no_paren : ∀ p ∈ colorNamesToColorValues, p.1.data.get? 3 ≠ some '(' := by
  decide

theorem parse_of_no_match (unicodeLower : Char → Char) (s : String)
    (h : matchesNoPattern s = true) :
    ParseCSSColorRepresentation unicodeLower s
      = match colorNamesToColorValues.lookup (ToLower unicodeLower s) with
        | some namedColorValue => .ok namedColorValue
        | none => .err ("invalid color value " ++ s) := by
  simp only [matchesNoPattern, Bool.and_eq_true, Bool.not_eq_true'] at h
  obtain ⟨⟨⟨⟨⟨h1, h2⟩, h3⟩, h4⟩, h5⟩, h6⟩ := h
  unfold ParseCSSColorRepresentation
  simp only [h1, h2, h3, h4, h5, h6, Bool.false_eq_true, if_false]


theorem decimal_chars (s : List Char) (h : isDecimalNumeral s = true) :
    ∀ c ∈ s, isDigit c = true ∨ c = '.' := by
  intro c hc
  rw [← List.takeWhile_append_dropWhile isDigit s, List.mem_append] at hc
  rcases hc with hc | hc
  · exact Or.inl (List.mem_takeWhile_imp hc)
  · simp only [isDecimalNumeral, Bool.and_eq_true, Bool.or_eq_true, Bool.not_eq_true',
      beq_iff_eq, List.all_eq_true] at h
    rcases h.2 with h2 | h2
    · rw [List.isEmpty_iff] at h2
      rw [h2] at hc
      simp at hc
    · cases hr : List.dropWhile isDigit s with
      | nil => rw [hr] at hc; simp at hc
      | cons x xs =>
        rw [hr] at hc h2
        simp only [List.head?_cons, Option.some.injEq, List.tail_cons] at h2
        rcases List.mem_cons.mp hc with hx | hx
        · exact Or.inr (hx.trans h2.1.1)
        · exact Or.inl (h2.2 c hx)

theorem digit_chars (s : List Char) (h : s.all isDigit = true) :
    ∀ c ∈ s, isDigit c = true ∨ c = '.' := by
  intro c hc
  exact Or.inl (List.all_eq_true.mp h c hc)

theorem count_eq_zero_of_chars (x : Char) (hx : isDigit x = false) (hx' : x ≠ '.')
    (s : List Char) (h : ∀ c ∈ s, isDigit c = true ∨ c = '.') : s.count x = 0 := by
  rw [List.count_eq_zero]
  intro hmem
  rcases h x hmem with h1 | h1
  · rw [hx] at h1; exact absurd h1 (by simp)
  · exact hx' h1

theorem hslText_count (x : Char) (hx : isDigit x = false) (hx' : x ≠ '.') (h s l : List Char)
    (hh : ∀ c ∈ h, isDigit c = true ∨ c = '.') (hs : ∀ c ∈ s, isDigit c = true ∨ c = '.')
    (hl : ∀ c ∈ l, isDigit c = true ∨ c = '.') :
    (hslText h s l).toList.count x = "hsl(,%,%)".toList.count x := by
  have e : (hslText h s l).toList
      = "hsl(".toList ++ (h ++ ([','] ++ (s ++ (['%', ','] ++ (l ++ ['%', ')']))))) := by
    simp [hslText, String.toList]
  rw [e]
  simp only [List.count_append, count_eq_zero_of_chars x hx hx' h hh,
    count_eq_zero_of_chars x hx hx' s hs, count_eq_zero_of_chars x hx hx' l hl]
  have e2 : "hsl(,%,%)".toList = "hsl(".toList ++ ([','] ++ (['%', ','] ++ ['%', ')'])) := by
    decide
  rw [e2]
  simp only [List.count_append]
  omega

theorem hslText_no_match (h s l : List Char)
    (hh : ∀ c ∈ h, isDigit c = true ∨ c = '.') (hs : ∀ c ∈ s, isDigit c = true ∨ c = '.')
    (hl : ∀ c ∈ l, isDigit c = true ∨ c = '.') : matchesNoPattern (hslText h s l) = true := by
  have c1 := hslText_count '#' (by decide) (by decide) h s l hh hs hl
  have c2 := hslText_count 'r' (by decide) (by decide) h s l hh hs hl
  have c3 := hslText_count '(' (by decide) (by decide) h s l hh hs hl
  have n1 : "hsl(,%,%)".toList.count '#' = 0 := by decide
  have n2 : "hsl(,%,%)".toList.count 'r' = 0 := by decide
  have n3 : "hsl(,%,%)".toList.count '(' = 1 := by decide
  have m1 : Regexp.minCount '#' hexTripletRegexp = 1 := by decide
  have m2 : Regexp.minCount '#' hexQuadrupletRegexp = 1 := by decide
  have m3 : Regexp.minCount 'r' rgbFunctionRegexp = 1 := by decide
  have m4 : Regexp.minCount 'r' rgbaFunctionRegexp = 1 := by decide
  have m5 : Regexp.minCount '(' hslFunctionRegexp = 2 := by decide
  have m6 : Regexp.minCount '(' hslaFunctionRegexp = 2 := by decide
  have f1 := Regexp.matchString_false_of_count '#' hexTripletRegexp (hslText h s l) (by omega)
  have f2 := Regexp.matchString_false_of_count '#' hexQuadrupletRegexp (hslText h s l)
    (by omega)
  have f3 := Regexp.matchString_false_of_count 'r' rgbFunctionRegexp (hslText h s l) (by omega)
  have f4 := Regexp.matchString_false_of_count 'r' rgbaFunctionRegexp (hslText h s l)
    (by omega)
  have f5 := Regexp.matchString_false_of_count '(' hslFunctionRegexp (hslText h s l) (by omega)
  have f6 := Regexp.matchString_false_of_count '(' hslaFunctionRegexp (hslText h s l)
    (by omega)
  simp only [matchesNoPattern, f1, f2, f3, f4, f5, f6]
  rfl

theorem lookup_hslText (unicodeLower : Char → Char) (h s l : List Char) :
    colorNamesToColorValues.lookup (ToLower unicodeLower (hslText h s l)) = none := by
  cases hl : colorNamesToColorValues.lookup (ToLower unicodeLower (hslText h s l)) with
  | none => rfl
  | some v =>
    have hm := lookup_mem _ _ _ hl
    have := table_no_paren _ hm
    exact absurd (by simp [ToLower, hslText, String.toList, toLowerRune]) this

/-- C8: a string `hsl(h,s%,l%)` whose hue is an integer above `360` is rejected with an
error and no colour. The string matches no pattern of the parser, the pattern of `hsl()`
wanting literal parentheses around the lightness: the error is the one of an invalid colour
value. -/
theorem hsl_hue_above_360 (unicodeLower : Char → Char) (h s l : List Char)
    (hh : h ≠ [] ∧ h.all isDigit = true) (_hv : 360 < decimalValue h)
    (hs : isDecimalNumeral s = true) (hl : isDecimalNumeral l = true) :
    ParseCSSColorRepresentation unicodeLower (hslText h s l)
      = .err ("invalid color value " ++ hslText h s l) := by
  rw [parse_of_no_match unicodeLower _
    (hslText_no_match h s l (digit_chars h hh.2) (decimal_chars s hs) (decimal_chars l hl)),
    lookup_hslText]

/-- Witness of `hsl_hue_above_360` at `hsl(400,50%,50%)`. -/
theorem hsl_hue_above_360_witness :
    ParseCSSColorRepresentation id "hsl(400,50%,50%)"
      = .err "invalid color value hsl(400,50%,50%)" :=
  hsl_hue_above_360 id "400".toList "50".toList "50".toList (by decide) (by decide)
    (by decide) (by decide)

/-- C7: a string that matches no pattern is looked up, in lower case, in the table of the
named colours: the entry is returned when there is one, the error `invalid color value`
otherwise. So `Red`, `RED` and `red` give `RGBA(255,0,0,255)`, and `notacolor` the error. -/
theorem named_colour_fallback (unicodeLower : Char → Char) :
    (∀ s : String, matchesNoPattern s = true →
        ParseCSSColorRepresentation unicodeLower s
          = match colorNamesToColorValues.lookup (ToLower unicodeLower s) with
            | some namedColorValue => .ok namedColorValue
            | none => .err ("invalid color value " ++ s))
      ∧ ParseCSSColorRepresentation unicodeLower "Red" = .ok (.rgba 255 0 0 255)
      ∧ ParseCSSColorRepresentation unicodeLower "RED" = .ok (.rgba 255 0 0 255)
      ∧ ParseCSSColorRepresentation unicodeLower "red" = .ok (.rgba 255 0 0 255)
      ∧ ParseCSSColorRepresentation unicodeLower "notacolor"
        = .err "invalid color value notacolor" :=
  ⟨fun s h => parse_of_no_match unicodeLower s h, rfl, rfl, rfl, rfl⟩

/-- Witness of `named_colour_fallback` at `Blue`. -/
theorem named_colour_fallback_witness :
    matchesNoPattern "Blue" = true
      ∧ ParseCSSColorRepresentation id "Blue" = .ok (.rgba 0 0 255 255) :=
  ⟨by decide, (named_colour_fallback id).1 "Blue" (by decide)⟩


set_option maxRecDepth 100000 in
theorem hexPair_signed : ∀ a ∈ hexChars, ∀ b ∈ hexChars,
    ParseInt [a, b] 16 8
      = if 127 < 16 * hexValue a + hexValue b then .error .ErrRange
        else .ok ((16 * hexValue a + hexValue b : Nat) : Int) := by
  decide

theorem hexTriplet_submatch (d1 d2 d3 d4 d5 d6 : Char)
    (h1 : isHexDigit d1 = true) (h2 : isHexDigit d2 = true) (h3 : isHexDigit d3 = true)
    (h4 : isHexDigit d4 = true) (h5 : isHexDigit d5 = true) (h6 : isHexDigit d6 = true) :
    Regexp.MatchString hexTripletRegexp (String.mk ['#', d1, d2, d3, d4, d5, d6]) = true
      ∧ Regexp.FindStringSubmatch hexTripletRegexp (String.mk ['#', d1, d2, d3, d4, d5, d6])
        = [['#', d1, d2, d3, d4, d5, d6], [d1, d2], [d3, d4], [d5, d6]] := by
  simp [Regexp.MatchString, Regexp.FindStringSubmatch, String.toList, Regexp.exec, Regexp.run,
    hexTripletRegexp, hexPair, Regexp.cat, Regexp.atEnd, Regexp.numSubexp, List.replicate,
    h1, h2, h3, h4, h5, h6]

/-- C26: on a string `#RRGGBB` of six hexadecimal digits the parser returns a colour exactly
when each of the three channels is at most `0x7F`; otherwise it returns the range error of
`strconv.ParseInt` for the first channel above `0x7F`. -/
theorem hex_triplet_signed (unicodeLower : Char → Char) (d1 d2 d3 d4 d5 d6 : Char)
    (h1 : isHexDigit d1 = true) (h2 : isHexDigit d2 = true) (h3 : isHexDigit d3 = true)
    (h4 : isHexDigit d4 = true) (h5 : isHexDigit d5 = true) (h6 : isHexDigit d6 = true) :
    ParseCSSColorRepresentation unicodeLower (String.mk ['#', d1, d2, d3, d4, d5, d6])
      = if 127 < 16 * hexValue d1 + hexValue d2 then
          .err (hexTripletRangeError "red" [d1, d2] (String.mk ['#', d1, d2, d3, d4, d5, d6]))
        else if 127 < 16 * hexValue d3 + hexValue d4 then
          .err (hexTripletRangeError "green" [d3, d4]
            (String.mk ['#', d1, d2, d3, d4, d5, d6]))
        else if 127 < 16 * hexValue d5 + hexValue d6 then
          .err (hexTripletRangeError "blue" [d5, d6] (String.mk ['#', d1, d2, d3, d4, d5, d6]))
        else
          .ok (.rgba (16 * hexValue d1 + hexValue d2) (16 * hexValue d3 + hexValue d4)
            (16 * hexValue d5 + hexValue d6) 255) := by
  have p1 := hexPair_signed d1 (mem_hexChars h1) d2 (mem_hexChars h2)
  have p2 := hexPair_signed d3 (mem_hexChars h3) d4 (mem_hexChars h4)
  have p3 := hexPair_signed d5 (mem_hexChars h5) d6 (mem_hexChars h6)
  obtain ⟨hm, hf⟩ := hexTriplet_submatch d1 d2 d3 d4 d5 d6 h1 h2 h3 h4 h5 h6
  unfold ParseCSSColorRepresentation
  rw [if_pos hm]
  simp only [hf, hexTripletComponent, index, bind, Outcome.bind, List.get?, p1, p2, p3,
    hexTripletRangeError]
  by_cases c1 : 127 < 16 * hexValue d1 + hexValue d2
  · simp only [c1, if_true]
  · by_cases c2 : 127 < 16 * hexValue d3 + hexValue d4
    · simp only [c1, c2, if_true, if_false]
    · by_cases c3 : 127 < 16 * hexValue d5 + hexValue d6
      · simp only [c1, c2, c3, if_true, if_false]
      · simp only [c1, c2, c3, if_false]
        have e1 : ((16 * hexValue d1 + hexValue d2 : Nat) : Int) % 256
            = ((16 * hexValue d1 + hexValue d2 : Nat) : Int) := by omega
        have e2 : ((16 * hexValue d3 + hexValue d4 : Nat) : Int) % 256
            = ((16 * hexValue d3 + hexValue d4 : Nat) : Int) := by omega
        have e3 : ((16 * hexValue d5 + hexValue d6 : Nat) : Int) % 256
            = ((16 * hexValue d5 + hexValue d6 : Nat) : Int) := by omega
        simp only [e1, e2, e3, Int.toNat_ofNat]

/-- Witness of `hex_triplet_signed` at `#336699`. -/
theorem hex_triplet_signed_witness :
    ParseCSSColorRepresentation id "#336699"
      = .err (hexTripletRangeError "blue" "99".toList "#336699") :=
  hex_triplet_signed id '3' '3' '6' '6' '9' '9' (by decide) (by decide) (by decide)
    (by decide) (by decide) (by decide)

theorem index_abort (sub : List (List Char)) (i : Nat) (h : sub.length ≤ i) :
    index sub i = .abort (.indexOutOfRange i sub.length) := by
  unfold index
  rw [List.get?_eq_none.mpr h]

/-- C25: a colour that the parser returns with a `nil` error is of the type `color.RGBA`;
in particular no string makes the parser return an `HSLA` value. -/
theorem parse_ok_is_rgba (unicodeLower : Char → Char) (s : String) (c : Color)
    (h : ParseCSSColorRepresentation unicodeLower s = .ok c) : c.isRGBA = true := by
  unfold ParseCSSColorRepresentation at h
  split_ifs at h with h1 h2 h3 h4 h5 h6
  · simp only [bind, Outcome.bind_eq_ok] at h
    obtain ⟨r, -, g, -, b, -, hc⟩ := h
    cases hc
    rfl
  · simp only [bind, Outcome.bind_eq_ok] at h
    obtain ⟨r, -, g, -, b, -, a, -, hc⟩ := h
    cases hc
    rfl
  · simp only [bind, Outcome.bind_eq_ok] at h
    obtain ⟨r, -, g, -, b, -, hc⟩ := h
    cases hc
    rfl
  · simp only [bind, Outcome.bind_eq_ok] at h
    obtain ⟨r, -, g, -, b, -, a, -, hc⟩ := h
    cases hc
    rfl
  · have hlen := Regexp.findStringSubmatch_length hslFunctionRegexp s h5
    have hn : Regexp.numSubexp hslFunctionRegexp + 1 = 3 := by decide
    simp only [bind, Outcome.bind_eq_ok] at h
    obtain ⟨hue, -, sat, -, l, hl, -⟩ := h
    have ha := index_abort (Regexp.FindStringSubmatch hslFunctionRegexp s) 3 (by omega)
    simp only [hslComponent, bind, ha, Outcome.bind] at hl
    exact absurd hl (by simp)
  · have hnil := Regexp.findStringSubmatch_nil hslFunctionRegexp s (by simpa using h5)
    simp only [bind, Outcome.bind_eq_ok] at h
    obtain ⟨hue, hh, -⟩ := h
    simp only [hueComponent, bind, hnil, index_abort [] 1 (by simp), Outcome.bind] at hh
    exact absurd hh (by simp)
  · cases hl : colorNamesToColorValues.lookup (ToLower unicodeLower s) with
    | none => rw [hl] at h; exact absurd h (by simp)
    | some v =>
      rw [hl] at h
      simp only [Outcome.ok.injEq] at h
      subst h
      exact table_is_rgba _ (lookup_mem _ _ _ hl)

/-- Witness of `parse_ok_is_rgba` at `#11223344`. -/
theorem parse_ok_is_rgba_witness :
    ParseCSSColorRepresentation id "#11223344" = .ok (.rgba 0x11 0x22 0x33 0x44)
      ∧ (Color.rgba 0x11 0x22 0x33 0x44).isRGBA = true :=
  ⟨by rfl, parse_ok_is_rgba id "#11223344" _ (by rfl)⟩


/-! ## Colour spaces -/

theorem Mod_two_of_nonneg (x : ℚ) (hx : 0 ≤ x) : Mod x 2 = x - 2 * ⌊x / 2⌋ := by
  unfold Mod
  rw [if_pos (by positivity)]

theorem floor_half (x : ℚ) (k : ℤ) (h1 : 2 * (k : ℚ) ≤ x) (h2 : x < 2 * (k : ℚ) + 2) :
    ⌊x / 2⌋ = k := by
  rw [Int.floor_eq_iff]
  constructor <;> linarith

/-- C11: for a hue `0 ≤ h < 360` the function `HSLtoRGB` computes the reference algorithm
with closed-open sextants; at the sextant boundaries `H' = 1, ..., 5`, where the code takes
the lower sextant, both triples are the same. -/
theorem HSLtoRGB_eq_reference (h s l : ℚ) (h0 : 0 ≤ h) (h360 : h < 360) :
    HSLtoRGB h s l = referenceHSLtoRGB h s l := by
  have H0 : 0 ≤ h / 60 := by positivity
  have H6 : h / 60 < 6 := by linarith
  unfold HSLtoRGB referenceHSLtoRGB
  simp only [Mod_two_of_nonneg _ H0]
  generalize h / 60 = H at H0 H6
  by_cases e1 : H = 1
  · subst e1
    have f : ⌊(1 : ℚ) / 2⌋ = 0 := floor_half 1 0 (by norm_num) (by norm_num)
    norm_num [f]
  by_cases e2 : H = 2
  · subst e2
    have f : ⌊(2 : ℚ) / 2⌋ = 1 := floor_half 2 1 (by norm_num) (by norm_num)
    norm_num [f]
  by_cases e3 : H = 3
  · subst e3
    have f : ⌊(3 : ℚ) / 2⌋ = 1 := floor_half 3 1 (by norm_num) (by norm_num)
    norm_num [f]
  by_cases e4 : H = 4
  · subst e4
    have f : ⌊(4 : ℚ) / 2⌋ = 2 := floor_half 4 2 (by norm_num) (by norm_num)
    norm_num [f]
  by_cases e5 : H = 5
  · subst e5
    have f : ⌊(5 : ℚ) / 2⌋ = 2 := floor_half 5 2 (by norm_num) (by norm_num)
    norm_num [f]
  have n1 : H ≤ 1 ↔ H < 1 := ⟨fun a => lt_of_le_of_ne a e1, le_of_lt⟩
  have n2 : H ≤ 2 ↔ H < 2 := ⟨fun a => lt_of_le_of_ne a e2, le_of_lt⟩
  have n3 : H ≤ 3 ↔ H < 3 := ⟨fun a => lt_of_le_of_ne a e3, le_of_lt⟩
  have n4 : H ≤ 4 ↔ H < 4 := ⟨fun a => lt_of_le_of_ne a e4, le_of_lt⟩
  have n5 : H ≤ 5 ↔ H < 5 := ⟨fun a => lt_of_le_of_ne a e5, le_of_lt⟩
  have g1 : H > 1 ↔ 1 ≤ H := ⟨le_of_lt, fun a => lt_of_le_of_ne a (Ne.symm e1)⟩
  have g2 : H > 2 ↔ 2 ≤ H := ⟨le_of_lt, fun a => lt_of_le_of_ne a (Ne.symm e2)⟩
  have g3 : H > 3 ↔ 3 ≤ H := ⟨le_of_lt, fun a => lt_of_le_of_ne a (Ne.symm e3)⟩
  have g4 : H > 4 ↔ 4 ≤ H := ⟨le_of_lt, fun a => lt_of_le_of_ne a (Ne.symm e4)⟩
  have g5 : H > 5 ↔ 5 ≤ H := ⟨le_of_lt, fun a => lt_of_le_of_ne a (Ne.symm e5)⟩
  have n6 : H ≤ 6 ↔ H < 6 := ⟨fun _ => H6, le_of_lt⟩
  simp only [ge_iff_le, n1, n2, n3, n4, n5, n6, g1, g2, g3, g4, g5]

/-- Witness of `HSLtoRGB_eq_reference` at the boundary `h = 120`, `H' = 2`. -/
theorem HSLtoRGB_eq_reference_witness :
    HSLtoRGB 120 1 (1 / 2) = referenceHSLtoRGB 120 1 (1 / 2) :=
  HSLtoRGB_eq_reference 120 1 (1 / 2) (by norm_num) (by norm_num)

/-- C12: the hue `360` gives the triple of the hue `0`, and at `s = 1`, `l = 1/2` both give
`(1, 0, 0)`. -/
theorem HSLtoRGB_360 (s l : ℚ) :
    HSLtoRGB 360 s l = HSLtoRGB 0 s l
      ∧ HSLtoRGB 0 1 (1 / 2) = (1, 0, 0) ∧ HSLtoRGB 360 1 (1 / 2) = (1, 0, 0) := by
  refine ⟨?_, ?_, ?_⟩ <;> norm_num [HSLtoRGB, Mod]

/-- C13: the guard `l > 0 || l < 1` of `RGBtoHSL` holds for every `l`, so at
`(0, 0, 0)` and at `(1, 1, 1)`, where the lightness is `0` and `1`, the quotient is taken
with the divisor `1 - |2l - 1| = 0`: the saturation is no number. -/
theorem RGBtoHSL_black_white :
    (∀ l : ℚ, l > 0 ∨ l < 1) ∧ RGBtoHSL 0 0 0 = none ∧ RGBtoHSL 1 1 1 = none := by
  refine ⟨fun l => ?_, ?_, ?_⟩
  · rcases le_or_lt l 0 with h | h
    · exact Or.inr (by linarith)
    · exact Or.inl h
  · norm_num [RGBtoHSL]
  · norm_num [RGBtoHSL]

/-- C14: at `(r, g, b) = (1, 0, 1/2)` the hue that `RGBtoHSL` returns is `-30`, outside
`[0, 360)`: `math.Mod` keeps the sign of `(g - b) / C`. -/
theorem RGBtoHSL_negative_hue : RGBtoHSL 1 0 (1 / 2) = some (-30, 1, 1 / 2) := by
  with_unfolding_all rfl

/-- C15: the round trip of `RGBA(255,0,128,255)` through `HSLA` gives `RGBA(0,0,0,255)`:
the hue is negative, no case of `HSLtoRGB` applies, and every colour channel is `0`. -/
theorem round_trip_HSLA_fails :
    (hslaModel (.rgba 255 0 128 255)).map rgbaModel = some (.rgba 0 0 0 255) := by
  with_unfolding_all rfl


/-! ## Luminance and the choice of a text colour -/

/-- C16: for the grey `R = G = B = 0.2` the code takes the linear branch on every channel,
its threshold being `0.3928`: the luminance is `0.2 / 12.92`, whatever the power function,
where the specification, with the threshold `0.04045`, has `((0.2 + 0.055) / 1.055) ^ 2.4`. -/
theorem luminance_grey (pow : ℚ → ℚ → ℚ) :
    relativeLuminance pow (.srgba (1 / 5) (1 / 5) (1 / 5) 1) = (1 / 5) / (1292 / 100)
      ∧ referenceLuminance pow (1 / 5) (1 / 5) (1 / 5) = pow (51 / 211) (12 / 5) := by
  constructor
  · norm_num [relativeLuminance, srgbaModel]
  · norm_num [referenceLuminance, referenceLinear]
    ring

/-- C17: the branch of the blue channel is chosen by the red channel. `RGBA(0,0,255,255)`
and `RGBA(255,0,255,255)` have the same blue channel `1`; its term is `0.0722 * (1 / 12.92)`
in the first luminance and `0.0722 * pow 1 2.4` in the second. -/
theorem luminance_blue_term (pow : ℚ → ℚ → ℚ) :
    relativeLuminance pow (.rgba 0 0 255 255) = 722 / 10000 * (1 / (1292 / 100))
      ∧ relativeLuminance pow (.rgba 255 0 255 255)
        = 2126 / 10000 * pow 1 (12 / 5) + 722 / 10000 * pow 1 (12 / 5) := by
  constructor <;> norm_num [relativeLuminance, srgbaModel, Color.RGBA]

theorem luminance_white (pow : ℚ → ℚ → ℚ) (h1 : pow 1 (12 / 5) = 1) :
    relativeLuminance pow White = 1 := by
  norm_num [relativeLuminance, srgbaModel, Color.RGBA, White, h1]

theorem luminance_black (pow : ℚ → ℚ → ℚ) : relativeLuminance pow Black = 0 := by
  norm_num [relativeLuminance, srgbaModel, Color.RGBA, Black]

/-- C18: without text colours `PickBestTextColor` returns black when the luminance of the
background is above `sqrt(1.05 * 0.05) - 0.05`, and white otherwise. With `pow 1 2.4 = 1` and
`0.05 ≤ sqrt(1.05 * 0.05) < 1.05` it returns black on white and white on black. -/
theorem pick_without_candidates (pow : ℚ → ℚ → ℚ) (sqrt : ℚ → ℚ) (hp : pow 1 (12 / 5) = 1)
    (hs : 5 / 100 ≤ sqrt (105 / 100 * (5 / 100)) ∧ sqrt (105 / 100 * (5 / 100)) < 105 / 100) :
    (∀ backgroundColor : Color,
        PickBestTextColor pow sqrt backgroundColor []
          = if relativeLuminance pow backgroundColor > sqrt (105 / 100 * (5 / 100)) - 5 / 100
            then some Black else some White)
      ∧ PickBestTextColor pow sqrt White [] = some Black
      ∧ PickBestTextColor pow sqrt Black [] = some White := by
  refine ⟨fun bg => ?_, ?_, ?_⟩
  · simp [PickBestTextColor]
  · simp only [PickBestTextColor, List.length_nil, if_true, luminance_white pow hp]
    rw [if_pos (by linarith [hs.2])]
  · simp only [PickBestTextColor, List.length_nil, if_true, luminance_black pow]
    rw [if_neg (by linarith [hs.1])]

/-- Witness of `pick_without_candidates` with `pow x y = 1` and `sqrt x = 229/1000`. -/
theorem pick_without_candidates_witness :
    PickBestTextColor (fun _ _ => 1) (fun _ => 229 / 1000) White [] = some Black
      ∧ PickBestTextColor (fun _ _ => 1) (fun _ => 229 / 1000) Black [] = some White :=
  (pick_without_candidates (fun _ _ => 1) (fun _ => 229 / 1000) rfl
    (by constructor <;> norm_num)).2


theorem pickLoop_spec (pow : ℚ → ℚ → ℚ) (backgroundL : ℚ) (l : List Color) :
    ∀ (best : Option Color) (r0 : ℚ),
      (pickLoop pow backgroundL l (best, r0) = (best, r0)
          ∧ ∀ d ∈ l, ratioOf pow backgroundL d ≤ r0)
        ∨ ∃ i c, l[i]? = some c
            ∧ pickLoop pow backgroundL l (best, r0) = (some c, ratioOf pow backgroundL c)
            ∧ r0 < ratioOf pow backgroundL c
            ∧ (∀ (j : Nat) (d : Color), l[j]? = some d → ratioOf pow backgroundL d ≤ ratioOf pow backgroundL c)
            ∧ (∀ (j : Nat) (d : Color), j < i → l[j]? = some d →
                ratioOf pow backgroundL d < ratioOf pow backgroundL c) := by
  induction l with
  | nil =>
    intro best r0
    exact Or.inl ⟨rfl, by simp⟩
  | cons x xs ih =>
    intro best r0
    by_cases hx : ratioOf pow backgroundL x > r0
    · have e : pickLoop pow backgroundL (x :: xs) (best, r0)
          = pickLoop pow backgroundL xs (some x, ratioOf pow backgroundL x) := by
        simp only [pickLoop]
        rw [if_pos (by exact hx)]
        rfl
      rcases ih (some x) (ratioOf pow backgroundL x) with ⟨h1, h2⟩ | ⟨i, c, hi, h1, h2, h3, h4⟩
      · refine Or.inr ⟨0, x, by simp, by rw [e, h1], hx, ?_, ?_⟩
        · intro j d hj
          cases j with
          | zero => simp only [List.getElem?_cons_zero, Option.some.injEq] at hj; rw [hj]
          | succ j =>
            simp only [List.getElem?_cons_succ] at hj
            exact h2 d (List.getElem?_mem hj)
        · intro j d hj
          exact absurd hj (by omega)
      · refine Or.inr ⟨i + 1, c, by simpa using hi, by rw [e, h1], lt_trans hx h2, ?_, ?_⟩
        · intro j d hj
          cases j with
          | zero =>
            simp only [List.getElem?_cons_zero, Option.some.injEq] at hj
            rw [← hj]
            exact le_of_lt h2
          | succ j =>
            simp only [List.getElem?_cons_succ] at hj
            exact h3 j d hj
        · intro j d hji hj
          cases j with
          | zero =>
            simp only [List.getElem?_cons_zero, Option.some.injEq] at hj
            rw [← hj]
            exact h2
          | succ j =>
            simp only [List.getElem?_cons_succ] at hj
            exact h4 j d (by omega) hj
    · have e : pickLoop pow backgroundL (x :: xs) (best, r0)
          = pickLoop pow backgroundL xs (best, r0) := by
        simp only [pickLoop]
        rw [if_neg (by exact hx)]
      rcases ih best r0 with ⟨h1, h2⟩ | ⟨i, c, hi, h1, h2, h3, h4⟩
      · refine Or.inl ⟨by rw [e, h1], ?_⟩
        intro d hd
        rcases List.mem_cons.mp hd with hd | hd
        · rw [hd]; exact le_of_not_lt hx
        · exact h2 d hd
      · refine Or.inr ⟨i + 1, c, by simpa using hi, by rw [e, h1], h2, ?_, ?_⟩
        · intro j d hj
          cases j with
          | zero =>
            simp only [List.getElem?_cons_zero, Option.some.injEq] at hj
            rw [← hj]
            exact le_trans (le_of_not_lt hx) (le_of_lt h2)
          | succ j =>
            simp only [List.getElem?_cons_succ] at hj
            exact h3 j d hj
        · intro j d hji hj
          cases j with
          | zero =>
            simp only [List.getElem?_cons_zero, Option.some.injEq] at hj
            rw [← hj]
            exact lt_of_le_of_lt (le_of_not_lt hx) h2
          | succ j =>
            simp only [List.getElem?_cons_succ] at hj
            exact h4 j d (by omega) hj

theorem luminance_nonneg (pow : ℚ → ℚ → ℚ) (hpow : ∀ x y : ℚ, 0 ≤ x → 0 ≤ pow x y) (c : Color)
    (hc : normalisedInUnit c) : 0 ≤ relativeLuminance pow c := by
  unfold normalisedInUnit at hc
  unfold relativeLuminance
  cases hm : srgbaModel c with
  | srgba R G B A =>
    rw [hm] at hc
    obtain ⟨⟨hR, -⟩, ⟨hG, -⟩, ⟨hB, -⟩, -⟩ := hc
    simp only
    have r : 0 ≤ (if R ≤ 3928 / 10000 then R / (1292 / 100)
        else pow ((R + 55 / 1000) / (1055 / 1000)) (24 / 10)) := by
      split_ifs
      · positivity
      · exact hpow _ _ (by positivity)
    have g : 0 ≤ (if G ≤ 3928 / 10000 then G / (1292 / 100)
        else pow ((G + 55 / 1000) / (1055 / 1000)) (24 / 10)) := by
      split_ifs
      · positivity
      · exact hpow _ _ (by positivity)
    have b : 0 ≤ (if R ≤ 3928 / 10000 then B / (1292 / 100)
        else pow ((B + 55 / 1000) / (1055 / 1000)) (24 / 10)) := by
      split_ifs
      · positivity
      · exact hpow _ _ (by positivity)
    positivity
  | rgba _ _ _ _ => simp [hm] at hc
  | gray16 _ => simp [hm] at hc
  | hsla _ _ _ _ => simp [hm] at hc

theorem contrastRatio_pos (backgroundL textL : ℚ) (hb : 0 ≤ backgroundL) (ht : 0 ≤ textL) :
    0 < contrastRatio backgroundL textL := by
  unfold contrastRatio
  split_ifs <;> positivity

/-- C19: with a non-empty list of text colours whose normalised channels, like those of the
background, lie in `[0, 1]`, `PickBestTextColor` returns the text colour at the least index
whose contrast ratio against the background is not below the ratio of any other: the ratio
of every earlier text colour is strictly smaller. (`pow` is not negative on a base that is
not negative.) -/
theorem pick_first_maximum (pow : ℚ → ℚ → ℚ) (sqrt : ℚ → ℚ)
    (hpow : ∀ x y : ℚ, 0 ≤ x → 0 ≤ pow x y) (backgroundColor : Color)
    (textColors : List Color) (hne : textColors ≠ [])
    (hb : normalisedInUnit backgroundColor) (ht : ∀ c ∈ textColors, normalisedInUnit c) :
    ∃ i c, textColors[i]? = some c
      ∧ PickBestTextColor pow sqrt backgroundColor textColors = some c
      ∧ (∀ (j : Nat) (d : Color), textColors[j]? = some d →
          ratioOf pow (relativeLuminance pow backgroundColor) d
            ≤ ratioOf pow (relativeLuminance pow backgroundColor) c)
      ∧ (∀ (j : Nat) (d : Color), j < i → textColors[j]? = some d →
          ratioOf pow (relativeLuminance pow backgroundColor) d
            < ratioOf pow (relativeLuminance pow backgroundColor) c) := by
  have hlen : ¬ textColors.length = 0 := by
    simpa [List.length_eq_zero] using hne
  unfold PickBestTextColor
  simp only [hlen, if_false]
  rcases pickLoop_spec pow (relativeLuminance pow backgroundColor) textColors none 0
    with ⟨-, h2⟩ | ⟨i, c, hi, h1, -, h3, h4⟩
  · obtain ⟨x, hx⟩ := List.exists_mem_of_ne_nil textColors hne
    have := contrastRatio_pos _ _ (luminance_nonneg pow hpow backgroundColor hb)
      (luminance_nonneg pow hpow x (ht x hx))
    exact absurd (h2 x hx) (not_le.mpr this)
  · exact ⟨i, c, hi, by rw [h1], h3, h4⟩

/-- Witness of `pick_first_maximum`: black background, text colours grey and white, with
`pow x y = x`. -/
theorem pick_first_maximum_witness :
    PickBestTextColor (fun x _ => x) (fun _ => 229 / 1000) (Color.rgba 0 0 0 255)
        [Color.rgba 128 128 128 255, Color.rgba 255 255 255 255]
      = some (Color.rgba 255 255 255 255) ∧
    ∃ i c, [Color.rgba 128 128 128 255, Color.rgba 255 255 255 255][i]? = some c
      ∧ PickBestTextColor (fun x _ => x) (fun _ => 229 / 1000) (Color.rgba 0 0 0 255)
          [Color.rgba 128 128 128 255, Color.rgba 255 255 255 255] = some c
      ∧ (∀ (j : Nat) (d : Color), [Color.rgba 128 128 128 255, Color.rgba 255 255 255 255][j]? = some d →
          ratioOf (fun x _ => x) (relativeLuminance (fun x _ => x) (Color.rgba 0 0 0 255)) d
            ≤ ratioOf (fun x _ => x)
                (relativeLuminance (fun x _ => x) (Color.rgba 0 0 0 255)) c)
      ∧ (∀ (j : Nat) (d : Color), j < i → [Color.rgba 128 128 128 255, Color.rgba 255 255 255 255][j]? = some d →
          ratioOf (fun x _ => x) (relativeLuminance (fun x _ => x) (Color.rgba 0 0 0 255)) d
            < ratioOf (fun x _ => x)
                (relativeLuminance (fun x _ => x) (Color.rgba 0 0 0 255)) c) :=
  ⟨by with_unfolding_all rfl,
  pick_first_maximum (fun x _ => x) (fun _ => 229 / 1000) (fun _ _ h => h)
    (Color.rgba 0 0 0 255) [Color.rgba 128 128 128 255, Color.rgba 255 255 255 255]
    (by simp) (by norm_num [normalisedInUnit, srgbaModel, Color.RGBA])
    (by
      intro c hc
      simp only [List.mem_cons, List.mem_singleton, List.not_mem_nil, or_false] at hc
      rcases hc with hc | hc <;> subst hc <;>
        norm_num [normalisedInUnit, srgbaModel, Color.RGBA])⟩


/-! ## Equality and conversion of colours -/

/-- C20: `EqualColors a b` holds exactly when the four 16-bit channels of `a.RGBA()` are
those of `b.RGBA()`, for colours of any type; so `EqualColors` is reflexive, symmetric and
transitive. -/
theorem EqualColors_iff :
    (∀ a b : Color, EqualColors a b = true ↔ a.RGBA = b.RGBA)
      ∧ (∀ a : Color, EqualColors a a = true)
      ∧ (∀ a b : Color, EqualColors a b = true → EqualColors b a = true)
      ∧ (∀ a b c : Color, EqualColors a b = true → EqualColors b c = true →
          EqualColors a c = true) := by
  have key : ∀ a b : Color, EqualColors a b = true ↔ a.RGBA = b.RGBA := by
    intro a b
    unfold EqualColors
    simp only [Bool.and_eq_true, beq_iff_eq]
    constructor
    · rintro ⟨⟨⟨h1, h2⟩, h3⟩, h4⟩
      exact Prod.ext h1 (Prod.ext h2 (Prod.ext h3 h4))
    · intro h
      rw [h]
      exact ⟨⟨⟨rfl, rfl⟩, rfl⟩, rfl⟩
  refine ⟨key, fun a => (key a a).mpr rfl, fun a b h => (key b a).mpr ((key a b).mp h).symm,
    fun a b c h1 h2 => (key a c).mpr (((key a b).mp h1).trans ((key b c).mp h2))⟩

/-- Witness of `EqualColors_iff`: an 8-bit colour, its `SRGBA` form and an `HSLA` value of
the same four channels are equal. -/
theorem EqualColors_iff_witness :
    EqualColors (.rgba 255 0 0 255) (.srgba 1 0 0 1) = true
      ∧ EqualColors (.srgba 1 0 0 1) (.hsla 0 1 (1 / 2) 1) = true
      ∧ EqualColors (.rgba 255 0 0 255) (.hsla 0 1 (1 / 2) 1) = true :=
  have h1 : EqualColors (.rgba 255 0 0 255) (.srgba 1 0 0 1) = true := by decide!
  have h2 : EqualColors (.srgba 1 0 0 1) (.hsla 0 1 (1 / 2) 1) = true := by decide!
  ⟨h1, h2, EqualColors_iff.2.2.2 _ (.srgba 1 0 0 1) _ h1 h2⟩

theorem hslaModel_is_hsla (c d : Color) (h : hslaModel c = some d) :
    ∃ x y z w, d = .hsla x y z w := by
  unfold hslaModel at h
  split at h
  · exact ⟨_, _, _, _, (Option.some.inj h).symm⟩
  · dsimp only at h
    split at h
    · exact ⟨_, _, _, _, (Option.some.inj h).symm⟩
    · exact absurd h (by simp)

theorem srgbaModel_is_srgba (c : Color) : ∃ x y z w, srgbaModel c = .srgba x y z w := by
  unfold srgbaModel
  split
  · exact ⟨_, _, _, _, rfl⟩
  · exact ⟨_, _, _, _, rfl⟩

/-- C21: the conversion of a colour to its own type returns the colour itself, whatever its
fields: `SRGBAModel.Convert` on an `SRGBA` value and `HSLAModel.Convert` on an `HSLA` value.
Hence each conversion is idempotent. -/
theorem convert_same_type (x y z w : ℚ) :
    srgbaModel (.srgba x y z w) = .srgba x y z w
      ∧ hslaModel (.hsla x y z w) = some (.hsla x y z w)
      ∧ (∀ c : Color, srgbaModel (srgbaModel c) = srgbaModel c)
      ∧ (∀ c d : Color, hslaModel c = some d → hslaModel d = some d) := by
  refine ⟨rfl, rfl, fun c => ?_, fun c d h => ?_⟩
  · obtain ⟨x, y, z, w, e⟩ := srgbaModel_is_srgba c
    rw [e]
    rfl
  · obtain ⟨x, y, z, w, e⟩ := hslaModel_is_hsla c d h
    rw [e]
    rfl

/-- Witness of `convert_same_type`: the grey `RGBA(128,128,128,255)` converted to `HSLA` once
and twice. -/
theorem convert_same_type_witness :
    hslaModel (.hsla 0 0 (32896 / 65535) 1) = some (.hsla 0 0 (32896 / 65535) 1) :=
  (convert_same_type 0 0 0 0).2.2.2 (.rgba 128 128 128 255) _ (by with_unfolding_all rfl)

theorem floatToUint_natCast (w n : Nat) (h : n < 2 ^ w) : floatToUint w (n : ℚ) = n := by
  unfold floatToUint
  rw [if_pos (by positivity)]
  simp only [Int.floor_natCast, Int.toNat_ofNat]
  exact Nat.mod_eq_of_lt h

/-- C22: for an 8-bit colour `c`, `SRGBAModel.Convert(c)` has the channels `v / 65535` of the
16-bit channels `v = 257 * x` of `c`; its method `RGBA()` returns the 16-bit channels of
`c`, so that the two are equal colours; and its conversion to 8 bits is `c`. (Exact
arithmetic in the place of `float64`.) -/
theorem srgba_lossless (r g b a : Nat) (hr : r < 256) (hg : g < 256) (hb : b < 256)
    (ha : a < 256) :
    srgbaModel (.rgba r g b a)
        = .srgba ((257 * r : Nat) / 65535) ((257 * g : Nat) / 65535) ((257 * b : Nat) / 65535)
            ((257 * a : Nat) / 65535)
      ∧ (srgbaModel (.rgba r g b a)).RGBA = (Color.rgba r g b a).RGBA
      ∧ EqualColors (.rgba r g b a) (srgbaModel (.rgba r g b a)) = true
      ∧ rgbaModel (srgbaModel (.rgba r g b a)) = .rgba r g b a := by
  have e : ∀ n : Nat, n + n * 2 ^ 8 = 257 * n := fun n => by omega
  have f : ∀ n : Nat, n < 256 →
      floatToUint 32 (((257 * n : Nat) : ℚ) / 65535 * 65535) = 257 * n := by
    intro n hn
    rw [div_mul_cancel₀ _ (by norm_num : (65535 : ℚ) ≠ 0)]
    exact floatToUint_natCast 32 _ (by omega)
  have h1 : srgbaModel (.rgba r g b a)
      = .srgba ((257 * r : Nat) / 65535) ((257 * g : Nat) / 65535) ((257 * b : Nat) / 65535)
          ((257 * a : Nat) / 65535) := by
    simp only [srgbaModel, Color.RGBA, e]
  have h2 : (srgbaModel (.rgba r g b a)).RGBA = (Color.rgba r g b a).RGBA := by
    rw [h1]
    simp only [Color.RGBA, f r hr, f g hg, f b hb, f a ha, e]
  refine ⟨h1, h2, ?_, ?_⟩
  · unfold EqualColors
    rw [h2]
    simp
  · rw [h1]
    simp only [rgbaModel, Color.RGBA, f r hr, f g hg, f b hb, f a ha, Nat.reducePow]
    have k : ∀ n : Nat, n < 256 → 257 * n / 256 % 256 = n := by
      intro n hn
      interval_cases n <;> rfl
    rw [k r hr, k g hg, k b hb, k a ha]

/-- Witness of `srgba_lossless` at `RGBA(51,102,153,255)`. -/
theorem srgba_lossless_witness :
    rgbaModel (srgbaModel (.rgba 51 102 153 255)) = .rgba 51 102 153 255 :=
  (srgba_lossless 51 102 153 255 (by decide) (by decide) (by decide) (by decide)).2.2.2

theorem make_any (c : Color) :
    MakeCSSColorRepresentation c AnyRepresentation
      = match c with
        | .srgba R G B A =>
          if A = 1 then
            some ("rgb(" ++ formatF (R * 100) ++ "%," ++ formatF (G * 100) ++ "%,"
              ++ formatF (B * 100) ++ "%)")
          else
            some ("rgba(" ++ formatF (R * 100) ++ "%," ++ formatF (G * 100) ++ "%,"
              ++ formatF (B * 100) ++ "%," ++ formatF A ++ ")")
        | .hsla H S L A =>
          if A = 1 then
            some ("hsl(" ++ formatD (floatToUint 16 H) ++ "," ++ formatF (S * 100) ++ "%,"
              ++ formatF (L * 100) ++ "%)")
          else
            some ("hsla(" ++ formatD (floatToUint 16 H) ++ "," ++ formatF (S * 100) ++ "%,"
              ++ formatF (L * 100) ++ "%," ++ formatF A ++ ")")
        | _ =>
          match rgbaModel c with
          | .rgba R G B A => some (formatRGBA R G B A)
          | _ => none := by
  unfold MakeCSSColorRepresentation
  rw [if_neg (by decide), if_neg (by decide), if_neg (by decide), if_neg (by decide),
    if_neg (by decide), if_neg (by decide)]

theorem make_rgb (c : Color) :
    MakeCSSColorRepresentation c RGBFunctionRepresentation
      = match rgbaModel c with
        | .rgba R G B _ =>
          some ("rgb(" ++ formatD R ++ "," ++ formatD G ++ "," ++ formatD B ++ ")")
        | _ => none := by
  unfold MakeCSSColorRepresentation
  rw [if_neg (by decide), if_neg (by decide), if_pos rfl]

theorem make_rgba (c : Color) :
    MakeCSSColorRepresentation c RGBAFunctionRepresentation
      = match rgbaModel c with
        | .rgba R G B A =>
          some ("rgba(" ++ formatD R ++ "," ++ formatD G ++ "," ++ formatD B ++ ","
            ++ formatF ((A : ℚ) / 255) ++ ")")
        | _ => none := by
  unfold MakeCSSColorRepresentation
  rw [if_neg (by decide), if_neg (by decide), if_neg (by decide), if_pos rfl]

theorem make_hsl (c : Color) :
    MakeCSSColorRepresentation c HSLFunctionRepresentation
      = match hslaModel c with
        | some (.hsla H S L _) =>
          some ("hsl(" ++ formatD (floatToUint 16 H) ++ "," ++ formatF (S * 100) ++ "%,"
            ++ formatF (L * 100) ++ "%)")
        | _ => none := by
  unfold MakeCSSColorRepresentation
  rw [if_neg (by decide), if_neg (by decide), if_neg (by decide), if_neg (by decide),
    if_pos rfl]

theorem make_hsla (c : Color) :
    MakeCSSColorRepresentation c HSLAFunctionRepresentation
      = match hslaModel c with
        | some (.hsla H S L A) =>
          some ("hsla(" ++ formatD (floatToUint 16 H) ++ "," ++ formatF (S * 100) ++ "%,"
            ++ formatF (L * 100) ++ "%," ++ formatF A ++ ")")
        | _ => none := by
  unfold MakeCSSColorRepresentation
  rw [if_neg (by decide), if_neg (by decide), if_neg (by decide), if_neg (by decide),
    if_neg (by decide), if_pos rfl]

/-- C23: with `AnyRepresentation` an 8-bit colour is formatted as with
`RGBFunctionRepresentation` when its alpha is `255` and as with
`RGBAFunctionRepresentation` otherwise; an `HSLA` value as with `HSLFunctionRepresentation`
when its alpha is `1` and as with `HSLAFunctionRepresentation` otherwise; an `SRGBA` value as
an `rgb()` of percentages when its alpha is `1` and as an `rgba()` of percentages
otherwise. -/
theorem automatic_representation :
    (∀ R G B A : Nat,
        MakeCSSColorRepresentation (.rgba R G B A) AnyRepresentation
          = if A = 255 then MakeCSSColorRepresentation (.rgba R G B A) RGBFunctionRepresentation
            else MakeCSSColorRepresentation (.rgba R G B A) RGBAFunctionRepresentation)
      ∧ (∀ H S L A : ℚ,
        MakeCSSColorRepresentation (.hsla H S L A) AnyRepresentation
          = if A = 1 then MakeCSSColorRepresentation (.hsla H S L A) HSLFunctionRepresentation
            else MakeCSSColorRepresentation (.hsla H S L A) HSLAFunctionRepresentation)
      ∧ (∀ R G B A : ℚ,
        MakeCSSColorRepresentation (.srgba R G B A) AnyRepresentation
          = if A = 1 then
              some ("rgb(" ++ formatF (R * 100) ++ "%," ++ formatF (G * 100) ++ "%,"
                ++ formatF (B * 100) ++ "%)")
            else
              some ("rgba(" ++ formatF (R * 100) ++ "%," ++ formatF (G * 100) ++ "%,"
                ++ formatF (B * 100) ++ "%," ++ formatF A ++ ")")) := by
  refine ⟨fun R G B A => ?_, fun H S L A => ?_, fun R G B A => ?_⟩
  · have e : rgbaModel (.rgba R G B A) = .rgba R G B A := rfl
    rw [make_any, make_rgb, make_rgba, e]
    simp only [formatRGBA]
    split_ifs <;> rfl
  · have e : hslaModel (.hsla H S L A) = some (.hsla H S L A) := rfl
    rw [make_any, make_hsl, make_hsla, e]
  · rw [make_any]


/-! ## The template functions -/

/-- C24: a call `(src, "l", v)` fails, the name `l` being parsed as the source colour. Where
the loop does reach the pair `("l", v)`, after a source colour `#11223344` in `args[1]`,
the field replaced is `S`, not `L`: of the `HSLA` form `(210, 1/2, 2/15, 4/15)` of the
source, `v = 1/4` gives `(210, 1/4, 2/15, 4/15)`. -/
theorem tweak_lightness (unicodeLower : Char → Char) (formatG : ℚ → String) :
    TweakColorTemplateFunc unicodeLower formatG [.str "#11223344", .str "l", .float (1 / 4)]
        = .err "cannot parse source color: invalid color value l"
      ∧ hslaModel (.rgba 0x11 0x22 0x33 0x44) = some (.hsla 210 (1 / 2) (2 / 15) (4 / 15))
      ∧ TweakColorTemplateFunc unicodeLower formatG
          [.str "", .str "#11223344", .int 0, .str "l", .float (1 / 4)]
        = .ok (MakeCSSColorRepresentation (.hsla 210 (1 / 4) (2 / 15) (4 / 15))
            AnyRepresentation)
      ∧ MakeCSSColorRepresentation (.hsla 210 (1 / 4) (2 / 15) (4 / 15)) AnyRepresentation
        = some "hsla(210,25.000000%,13.333333%,0.266667)" := by
  refine ⟨?_, ?_, ?_, ?_⟩ <;> with_unfolding_all rfl

/-- C28: the source colour is not taken from the first argument. The call
`(#11223344, "red", 10)` parses its second argument `red` as the source colour and returns
`rgb(10,0,0)`; the red channel replaced in `#11223344` would be `rgba(10,34,51,0.266667)`. -/
theorem tweak_red (unicodeLower : Char → Char) (formatG : ℚ → String) :
    TweakColorTemplateFunc unicodeLower formatG [.str "#11223344", .str "red", .int 10]
        = .ok (some "rgb(10,0,0)")
      ∧ MakeCSSColorRepresentation (.rgba 10 0x22 0x33 0x44) AnyRepresentation
        = some "rgba(10,34,51,0.266667)" := by
  refine ⟨?_, ?_⟩ <;> with_unfolding_all rfl

/-- C29: with one argument `PickBestTextColorTemplateFunc` reads `args[1]`, past the end of
the argument list: the call panics. -/
theorem pick_template_one_argument (unicodeLower : Char → Char) (pow : ℚ → ℚ → ℚ)
    (sqrt : ℚ → ℚ) (a : Arg) :
    PickBestTextColorTemplateFunc unicodeLower pow sqrt [a]
      = .abort (.indexOutOfRange 1 1) := by
  rfl


/-! ## The round trip RGB to HSL to RGB in exact arithmetic -/

theorem Mod_two (H : ℚ) (k : ℤ) (h0 : 0 ≤ H) (h1 : 2 * (k : ℚ) ≤ H) (h2 : H < 2 * (k : ℚ) + 2) :
    Mod H 2 = H - 2 * k := by
  rw [Mod_two_of_nonneg H h0, floor_half H k h1 h2]

theorem HSLtoRGB_sextant0 (H C m s l : ℚ) (hC : (1 - |2 * l - 1|) * s = C)
    (hm : l - C / 2 = m) (h0 : 0 ≤ H) (h1 : H ≤ 1) :
    HSLtoRGB (H * 60) s l = (C + m, C * H + m, m) := by
  have e : H * 60 / 60 = H := by field_simp
  have hmod : Mod H 2 = H := by
    have := Mod_two H 0 h0 (by simpa using h0) (by norm_num; linarith)
    simpa using this
  unfold HSLtoRGB
  simp only [e, hC, hm, hmod]
  rw [if_pos ⟨h0, h1⟩, abs_of_nonpos (by linarith)]
  simp only [Prod.mk.injEq]
  refine ⟨trivial, ?_, by ring⟩
  ring

theorem HSLtoRGB_sextant1 (H C m s l : ℚ) (hC : (1 - |2 * l - 1|) * s = C)
    (hm : l - C / 2 = m) (h1 : 1 < H) (h2 : H ≤ 2) :
    HSLtoRGB (H * 60) s l = (C * (2 - H) + m, C + m, m) := by
  have e : H * 60 / 60 = H := by field_simp
  have hX : C * (1 - |Mod H 2 - 1|) = C * (2 - H) := by
    rcases eq_or_lt_of_le h2 with h | h
    · subst h
      have := Mod_two 2 1 (by norm_num) (by norm_num) (by norm_num)
      rw [this]
      norm_num
    · have := Mod_two H 0 (by linarith) (by norm_num; linarith) (by norm_num; linarith)
      rw [this, Int.cast_zero, mul_zero, sub_zero, abs_of_nonneg (by linarith)]
      ring
  unfold HSLtoRGB
  simp only [e, hC, hm, hX]
  rw [if_neg (by intro h; linarith [h.2]), if_pos ⟨h1, h2⟩]
  simp

theorem HSLtoRGB_sextant2 (H C m s l : ℚ) (hC : (1 - |2 * l - 1|) * s = C)
    (hm : l - C / 2 = m) (h2 : 2 < H) (h3 : H ≤ 3) :
    HSLtoRGB (H * 60) s l = (m, C + m, C * (H - 2) + m) := by
  have e : H * 60 / 60 = H := by field_simp
  have hX : C * (1 - |Mod H 2 - 1|) = C * (H - 2) := by
    have := Mod_two H 1 (by linarith) (by norm_num; linarith) (by norm_num; linarith)
    rw [this, Int.cast_one, mul_one, abs_of_nonpos (by linarith)]
    ring
  unfold HSLtoRGB
  simp only [e, hC, hm, hX]
  rw [if_neg (by intro h; linarith [h.2]), if_neg (by intro h; linarith [h.2]),
    if_pos ⟨h2, h3⟩]
  simp

theorem HSLtoRGB_sextant3 (H C m s l : ℚ) (hC : (1 - |2 * l - 1|) * s = C)
    (hm : l - C / 2 = m) (h3 : 3 < H) (h4 : H ≤ 4) :
    HSLtoRGB (H * 60) s l = (m, C * (4 - H) + m, C + m) := by
  have e : H * 60 / 60 = H := by field_simp
  have hX : C * (1 - |Mod H 2 - 1|) = C * (4 - H) := by
    rcases eq_or_lt_of_le h4 with h | h
    · subst h
      have := Mod_two 4 2 (by norm_num) (by norm_num) (by norm_num)
      rw [this]
      norm_num
    · have := Mod_two H 1 (by linarith) (by norm_num; linarith) (by norm_num; linarith)
      rw [this, Int.cast_one, mul_one, abs_of_nonneg (by linarith)]
      ring
  unfold HSLtoRGB
  simp only [e, hC, hm, hX]
  rw [if_neg (by intro h; linarith [h.2]), if_neg (by intro h; linarith [h.2]),
    if_neg (by intro h; linarith [h.2]), if_pos ⟨h3, h4⟩]
  simp

theorem HSLtoRGB_sextant4 (H C m s l : ℚ) (hC : (1 - |2 * l - 1|) * s = C)
    (hm : l - C / 2 = m) (h4 : 4 < H) (h5 : H ≤ 5) :
    HSLtoRGB (H * 60) s l = (C * (H - 4) + m, m, C + m) := by
  have e : H * 60 / 60 = H := by field_simp
  have hX : C * (1 - |Mod H 2 - 1|) = C * (H - 4) := by
    have := Mod_two H 2 (by linarith) (by norm_num; linarith) (by norm_num; linarith)
    rw [this, abs_of_nonpos (by push_cast; linarith)]
    push_cast
    ring
  unfold HSLtoRGB
  simp only [e, hC, hm, hX]
  rw [if_neg (by intro h; linarith [h.2]), if_neg (by intro h; linarith [h.2]),
    if_neg (by intro h; linarith [h.2]), if_neg (by intro h; linarith [h.2]),
    if_pos ⟨h4, h5⟩]
  simp

theorem RGBtoHSL_some (r g b M m H : ℚ) (hM : max (max r g) (max g b) = M)
    (hm : min (min r g) (min g b) = m) (hlt : m < M) (h0 : 0 ≤ m) (h1 : M ≤ 1)
    (hH : (if M = r then Mod ((g - b) / (M - m)) 6
        else if M = g then (b - r) / (M - m) + 2
        else if M = b then (r - g) / (M - m) + 4
        else 0) = H) :
    RGBtoHSL r g b
        = some (H * 60, (M - m) / (1 - |2 * ((M + m) / 2) - 1|), (M + m) / 2)
      ∧ (1 - |2 * ((M + m) / 2) - 1|) * ((M - m) / (1 - |2 * ((M + m) / 2) - 1|)) = M - m
      ∧ (M + m) / 2 - (M - m) / 2 = m := by
  have hD : 0 < 1 - |2 * ((M + m) / 2) - 1| := by
    have : |2 * ((M + m) / 2) - 1| < 1 := by
      rw [abs_lt]
      constructor <;> linarith
    linarith
  refine ⟨?_, mul_div_cancel₀ _ (ne_of_gt hD), by ring⟩
  unfold RGBtoHSL
  simp only [hM, hm]
  rw [if_pos (show (M + m) / 2 > 0 ∨ (M + m) / 2 < 1 from Or.inl (by linarith)),
    if_neg (ne_of_gt hD), hH, if_pos (show M - m ≠ 0 from ne_of_gt (by linarith))]


theorem Mod_six_small (x : ℚ) (h0 : 0 ≤ x) (h1 : x < 6) : Mod x 6 = x := by
  unfold Mod
  have hf : ⌊x / 6⌋ = 0 := by
    rw [Int.floor_eq_iff]
    constructor
    · simp only [Int.cast_zero]; positivity
    · simp only [Int.cast_zero, zero_add]; linarith
  rw [if_pos (by positivity), hf]
  simp

/-- C27: in exact arithmetic, for `r`, `g`, `b` in `[0, 1]` that are not all equal, and
unless `r` is the maximum while `g < b`, `RGBtoHSL` returns a triple that `HSLtoRGB` converts
back to `(r, g, b)`. -/
theorem round_trip_exact (r g b : ℚ) (hr : 0 ≤ r ∧ r ≤ 1) (hg : 0 ≤ g ∧ g ≤ 1)
    (hb : 0 ≤ b ∧ b ≤ 1) (hne : ¬(r = g ∧ g = b))
    (hex : ¬(max (max r g) (max g b) = r ∧ g < b)) :
    ∃ h s l, RGBtoHSL r g b = some (h, s, l) ∧ HSLtoRGB h s l = (r, g, b) := by
  by_cases c1 : g ≤ r ∧ b ≤ r
  · -- the maximum is `r`
    have hM : max (max r g) (max g b) = r :=
      le_antisymm (max_le (max_le le_rfl c1.1) (max_le c1.1 c1.2))
        (le_trans (le_max_left r g) (le_max_left _ _))
    have hgb : b ≤ g := by
      by_contra h
      exact hex ⟨hM, lt_of_not_le h⟩
    have hm : min (min r g) (min g b) = b :=
      le_antisymm (le_trans (min_le_right _ _) (min_le_right g b))
        (le_min (le_min c1.2 hgb) (le_min hgb le_rfl))
    have hlt : b < r := by
      rcases eq_or_lt_of_le c1.2 with h | h
      · exact (hne ⟨by linarith [c1.1], by linarith [c1.1]⟩).elim
      · exact h
    have hC : 0 < r - b := by linarith
    have hH0 : 0 ≤ (g - b) / (r - b) := div_nonneg (by linarith) (le_of_lt hC)
    have hH1 : (g - b) / (r - b) ≤ 1 := by
      rw [div_le_one hC]
      linarith
    obtain ⟨e1, e2, e3⟩ := RGBtoHSL_some r g b r b ((g - b) / (r - b)) hM hm hlt hb.1 hr.2
      (by rw [if_pos rfl]; exact Mod_six_small _ hH0 (by linarith))
    refine ⟨_, _, _, e1, ?_⟩
    rw [HSLtoRGB_sextant0 _ (r - b) b _ _ e2 e3 hH0 hH1]
    have : (r - b) * ((g - b) / (r - b)) = g - b := mul_div_cancel₀ _ (ne_of_gt hC)
    rw [this]
    simp
  · by_cases c2 : r ≤ g ∧ b ≤ g
    · -- the maximum is `g`, and `r < g`
      have hrg : r < g := by
        by_contra h
        have h1 : g ≤ r := le_of_not_lt h
        exact c1 ⟨h1, le_trans c2.2 h1⟩
      have hM : max (max r g) (max g b) = g :=
        le_antisymm (max_le (max_le c2.1 le_rfl) (max_le le_rfl c2.2))
          (le_trans (le_max_right r g) (le_max_left _ _))
      by_cases c3 : b < r
      · have hm : min (min r g) (min g b) = b :=
          le_antisymm (le_trans (min_le_right _ _) (min_le_right g b))
            (le_min (le_min (le_of_lt c3) c2.2) (le_min c2.2 le_rfl))
        have hC : 0 < g - b := by linarith
        have hq0 : 0 < (r - b) / (g - b) := div_pos (by linarith) hC
        have hq1 : (r - b) / (g - b) < 1 := by
          rw [div_lt_one hC]
          linarith
        have hHe : (b - r) / (g - b) + 2 = 2 - (r - b) / (g - b) := by
          field_simp
          ring
        obtain ⟨e1, e2, e3⟩ := RGBtoHSL_some r g b g b (2 - (r - b) / (g - b)) hM hm
          (by linarith) hb.1 hg.2
          (by rw [if_neg (ne_of_gt hrg), if_pos rfl]; exact hHe)
        refine ⟨_, _, _, e1, ?_⟩
        rw [HSLtoRGB_sextant1 _ (g - b) b _ _ e2 e3 (by linarith) (by linarith)]
        have : (g - b) * (2 - (2 - (r - b) / (g - b))) = r - b := by
          field_simp
        rw [this]
        simp
      · have hrb : r ≤ b := le_of_not_lt c3
        have hm : min (min r g) (min g b) = r :=
          le_antisymm (le_trans (min_le_left _ _) (min_le_left r g))
            (le_min (le_min le_rfl c2.1) (le_min c2.1 hrb))
        have hC : 0 < g - r := by linarith
        have hq0 : 0 ≤ (b - r) / (g - r) := div_nonneg (by linarith) (le_of_lt hC)
        have hq1 : (b - r) / (g - r) ≤ 1 := by
          rw [div_le_one hC]
          linarith
        obtain ⟨e1, e2, e3⟩ := RGBtoHSL_some r g b g r ((b - r) / (g - r) + 2) hM hm
          hrg hr.1 hg.2
          (by rw [if_neg (ne_of_gt hrg), if_pos rfl])
        refine ⟨_, _, _, e1, ?_⟩
        rcases eq_or_lt_of_le hrb with h | h
        · -- `b = r`, the hue is on the boundary `H = 2`
          subst h
          have hz : (r - r) / (g - r) + 2 = 2 := by simp
          rw [hz] at e1 ⊢
          rw [HSLtoRGB_sextant1 2 (g - r) r _ _ e2 e3 (by norm_num) (by norm_num)]
          simp
        · have hq0' : 0 < (b - r) / (g - r) := div_pos (by linarith) hC
          rw [HSLtoRGB_sextant2 _ (g - r) r _ _ e2 e3 (by linarith) (by linarith)]
          have : (g - r) * ((b - r) / (g - r) + 2 - 2) = b - r := by
            field_simp
            ring
          rw [this]
          simp
    · -- the maximum is `b`, and `r < b`, `g < b`
      have hgb : g < b := by
        by_contra h
        have h1 : b ≤ g := le_of_not_lt h
        by_cases h2 : r ≤ g
        · exact c2 ⟨h2, h1⟩
        · exact c1 ⟨le_of_lt (lt_of_not_le h2), le_trans h1 (le_of_lt (lt_of_not_le h2))⟩
      have hrb : r < b := by
        by_contra h
        have h1 : b ≤ r := le_of_not_lt h
        exact c1 ⟨le_trans (le_of_lt hgb) h1, h1⟩
      have hM : max (max r g) (max g b) = b :=
        le_antisymm (max_le (max_le (le_of_lt hrb) (le_of_lt hgb)) (max_le (le_of_lt hgb) le_rfl))
          (le_trans (le_max_right g b) (le_max_right _ _))
      by_cases c3 : r < g
      · have hm : min (min r g) (min g b) = r :=
          le_antisymm (le_trans (min_le_left _ _) (min_le_left r g))
            (le_min (le_min le_rfl (le_of_lt c3)) (le_min (le_of_lt c3) (le_of_lt hrb)))
        have hC : 0 < b - r := by linarith
        have hq0 : 0 < (g - r) / (b - r) := div_pos (by linarith) hC
        have hq1 : (g - r) / (b - r) < 1 := by
          rw [div_lt_one hC]
          linarith
        have hHe : (r - g) / (b - r) + 4 = 4 - (g - r) / (b - r) := by
          field_simp
          ring
        obtain ⟨e1, e2, e3⟩ := RGBtoHSL_some r g b b r (4 - (g - r) / (b - r)) hM hm
          hrb hr.1 hb.2
          (by rw [if_neg (ne_of_gt hrb), if_neg (ne_of_gt hgb), if_pos rfl]; exact hHe)
        refine ⟨_, _, _, e1, ?_⟩
        rw [HSLtoRGB_sextant3 _ (b - r) r _ _ e2 e3 (by linarith) (by linarith)]
        have : (b - r) * (4 - (4 - (g - r) / (b - r))) = g - r := by
          field_simp
        rw [this]
        simp
      · have hgr : g ≤ r := le_of_not_lt c3
        have hm : min (min r g) (min g b) = g :=
          le_antisymm (le_trans (min_le_left _ _) (min_le_right r g))
            (le_min (le_min hgr le_rfl) (le_min le_rfl (le_of_lt hgb)))
        have hC : 0 < b - g := by linarith
        have hq0 : 0 ≤ (r - g) / (b - g) := div_nonneg (by linarith) (le_of_lt hC)
        have hq1 : (r - g) / (b - g) ≤ 1 := by
          rw [div_le_one hC]
          linarith
        obtain ⟨e1, e2, e3⟩ := RGBtoHSL_some r g b b g ((r - g) / (b - g) + 4) hM hm
          hgb hg.1 hb.2
          (by rw [if_neg (ne_of_gt hrb), if_neg (ne_of_gt hgb), if_pos rfl])
        refine ⟨_, _, _, e1, ?_⟩
        rcases eq_or_lt_of_le hgr with h | h
        · -- `r = g`, the hue is on the boundary `H = 4`
          subst h
          have hz : (g - g) / (b - g) + 4 = 4 := by simp
          rw [hz] at e1 ⊢
          rw [HSLtoRGB_sextant3 4 (b - g) g _ _ e2 e3 (by norm_num) (by norm_num)]
          simp
        · have hq0' : 0 < (r - g) / (b - g) := div_pos (by linarith) hC
          rw [HSLtoRGB_sextant4 _ (b - g) g _ _ e2 e3 (by linarith) (by linarith)]
          have : (b - g) * ((r - g) / (b - g) + 4 - 4) = r - g := by
            field_simp
            ring
          rw [this]
          simp

/-- Witness of `round_trip_exact` at `(1/5, 2/5, 3/5)`. -/
theorem round_trip_exact_witness :
    ∃ h s l, RGBtoHSL (1 / 5) (2 / 5) (3 / 5) = some (h, s, l)
      ∧ HSLtoRGB h s l = (1 / 5, 2 / 5, 3 / 5) :=
  round_trip_exact (1 / 5) (2 / 5) (3 / 5) (by norm_num) (by norm_num) (by norm_num)
    (by norm_num) (by norm_num)

end Colorhelper
